import Mathlib

/-!
# Verification of the fitness analytics engine

A shallow embedding of the analytics engine (`src/analyzer.py` and the data
model in `src/models.py`) of the `hz2/fitness` repository, together with
proofs and refutations of the frozen specification claims.

Modelling conventions:
* Python floats are modelled as rationals (`ℚ`); Python ints as `ℤ`
  (counts produced by the engine itself as `ℕ`).
* Python `round(x, n)` rounds half to even; it is modelled exactly by `rhe`.
* `datetime.date` is modelled by a year/month/day record `Date` together with
  its proleptic-Gregorian ordinal (`Date.ord`, as in `date.toordinal()`).
  Comparison of dates, subtraction (`.days`) and comparison of their
  `isoformat()` strings (all zero-padded to equal width for the years the
  Python `date` type admits) all coincide with comparison of ordinals, and are
  modelled that way.
* Python dicts are insertion-ordered; they are modelled by association lists
  with an `upsert` that updates in place and appends fresh keys at the end.
* Calls of `datetime.now()` inside the engine are made explicit: every
  function that reads the wall clock receives the value of
  `datetime.now().date()` as an explicit `today`/`now` argument.
* Fallible Python arithmetic (division that can raise `ZeroDivisionError`)
  is modelled with `Except Unit`.
-/

/-- Round half to even (the tie-breaking rule of Python's builtin `round`)
of a rational to an integer. -/
def rhe (x : ℚ) : ℤ :=
  if x - (⌊x⌋ : ℚ) < 1/2 then ⌊x⌋
  else if 1/2 < x - (⌊x⌋ : ℚ) then ⌊x⌋ + 1
  else if ⌊x⌋ % 2 = 0 then ⌊x⌋ else ⌊x⌋ + 1

/-- Python `round(x, n)` on our rational model of floats. -/
def pyRound (x : ℚ) (n : ℕ) : ℚ :=
  ((rhe (x * (10 : ℚ) ^ n) : ℤ) : ℚ) / (10 : ℚ) ^ n

/-- Python truthiness of an optional float (`None` and `0.0` are falsy). -/
def qTruthy : Option ℚ → Bool
  | none => false
  | some x => x != 0

/-- Python truthiness of an optional int (`None` and `0` are falsy). -/
def zTruthy : Option ℤ → Bool
  | none => false
  | some x => x != 0

/-- Python `s.lower()` (character-wise; the engine's data is ASCII). -/
def sLower (s : String) : String := ⟨s.data.map Char.toLower⟩

/-- Python `s.strip()`: drop leading and trailing whitespace. -/
def sTrim (s : String) : String :=
  ⟨((s.data.dropWhile Char.isWhitespace).reverse.dropWhile Char.isWhitespace).reverse⟩

/-- Code-point lexicographic comparison (Python `<` on strings). -/
def charListLt : List Char → List Char → Bool
  | [], [] => false
  | [], _ :: _ => true
  | _ :: _, [] => false
  | a :: as, b :: bs => if a < b then true else if b < a then false else charListLt as bs

/-! ## Calendar dates (`datetime.date`) -/

/-- A calendar date, as Python's `datetime.date`. -/
structure Date where
  year : Int
  month : Int
  day : Int
deriving DecidableEq, Repr

/-- Gregorian leap-year test. -/
def isLeap (y : Int) : Bool := (y % 4 == 0 && y % 100 != 0) || y % 400 == 0

/-- Lengths of the twelve months. -/
def monthDays (leap : Bool) : List Int :=
  [31, if leap then 29 else 28, 31, 30, 31, 30, 31, 31, 30, 31, 30, 31]

/-- Days in the year strictly before month `m`. -/
def daysBeforeMonth (leap : Bool) (m : Int) : Int :=
  ((monthDays leap).take (m - 1).toNat).sum

/-- Days strictly before year `y` (valid for the years `y ≥ 1` that Python's
`date` admits, where truncating and flooring division agree). -/
def daysBeforeYear (y : Int) : Int :=
  365 * (y - 1) + (y - 1) / 4 - (y - 1) / 100 + (y - 1) / 400

/-- Proleptic-Gregorian ordinal (day 1 = 0001-01-01), Python `date.toordinal()`. -/
def Date.ord (d : Date) : Int :=
  daysBeforeYear d.year + daysBeforeMonth (isLeap d.year) d.month + d.day

/-- Ordinal of the Monday of ISO week 1 of year `y` (the week containing
January 4; ordinal 1 is a Monday). -/
def isoWeek1Monday (y : Int) : Int :=
  let jan4 := daysBeforeYear y + 4
  jan4 - (jan4 - 1) % 7

/-- ISO (year, week) of a date, the first two components of Python's
`date.isocalendar()`. -/
def Date.isocal (d : Date) : Int × Int :=
  let o := d.ord
  let w1 := isoWeek1Monday d.year
  if o < w1 then
    let w1p := isoWeek1Monday (d.year - 1)
    (d.year - 1, (o - w1p) / 7 + 1)
  else
    let w1n := isoWeek1Monday (d.year + 1)
    if w1n ≤ o then (d.year + 1, 1) else (d.year, (o - w1) / 7 + 1)

/-! ## Data model (`src/models.py`) -/

/-- `ActivityType` enumeration. -/
inductive ActivityType
  | run | walk | ride | strength | cardio | other
deriving DecidableEq, Repr

instance : BEq ActivityType := ⟨fun a b => decide (a = b)⟩

/-- One logged exercise set. -/
structure Exercise where
  name : String
  weight_lbs : ℚ
  reps : ℤ
  rpe : Option ℚ := none
deriving DecidableEq, Repr

/-- `Exercise.volume`: weight × reps. -/
def Exercise.volume (e : Exercise) : ℚ := e.weight_lbs * (e.reps : ℚ)

/-- A cardio session embedded in a lifting workout (pass-through only). -/
structure CardioSession where
  activity_type : String
  distance : Option ℚ := none
  duration_minutes : Option ℚ := none
  steps : Option ℤ := none
deriving DecidableEq, Repr

/-- A strength-training session. -/
structure LiftingWorkout where
  date : Date
  muscle_groups : String
  exercises : List Exercise := []
  cardio : Option CardioSession := none
  pushups : Option ℤ := none
  pullups : Option ℤ := none
  bodyweight_lbs : Option ℚ := none
  notes : Option String := none
deriving DecidableEq, Repr

/-- `LiftingWorkout.total_volume`: sum of exercise volumes. -/
def LiftingWorkout.total_volume (w : LiftingWorkout) : ℚ :=
  (w.exercises.map Exercise.volume).sum

/-- An endurance activity (`StravaActivity`).  The `start_time` timestamp,
meter-valued duplicates and the polyline are pass-through fields never read
by the analytics engine and are elided. -/
structure StravaActivity where
  id : ℤ
  name : String
  activity_type : ActivityType
  sport_type : String := ""
  date : Date
  distance_miles : ℚ
  moving_time_seconds : ℤ
  elapsed_time_seconds : ℤ := 0
  elevation_gain_feet : ℚ := 0
  average_speed_mph : ℚ := 0
  max_speed_mph : ℚ := 0
  average_heartrate : Option ℚ := none
  max_heartrate : Option ℤ := none
  average_cadence : Option ℚ := none
  calories : Option ℤ := none
  suffer_score : Option ℤ := none
deriving DecidableEq, Repr

/-- `moving_time_minutes` derived property. -/
def StravaActivity.moving_time_minutes (a : StravaActivity) : ℚ :=
  (a.moving_time_seconds : ℚ) / 60

/-- `pace_seconds` derived property: `None` when the distance is zero. -/
def StravaActivity.pace_seconds (a : StravaActivity) : Option ℚ :=
  if a.distance_miles = 0 then none
  else some ((a.moving_time_seconds : ℚ) / a.distance_miles)

/-- Format seconds as Python's `f"{mins}:{secs:02d}"` with
`mins = int(seconds // 60)` and `secs = int(seconds % 60)`. -/
def formatMinSec (ps : ℚ) : String :=
  let mins : Int := ⌊ps / 60⌋
  let secs : Int := ⌊ps⌋ - 60 * mins
  toString mins ++ ":" ++ (if secs < 10 then "0" ++ toString secs else toString secs)

/-- `pace_per_mile` derived property (formatted pace, `None` on zero distance). -/
def StravaActivity.pace_per_mile (a : StravaActivity) : Option String :=
  if a.distance_miles = 0 then none
  else some (formatMinSec ((a.moving_time_seconds : ℚ) / a.distance_miles))

/-! ## Name normalization tables (`src/analyzer.py`) -/

/-- `EXERCISE_ALIASES`: variations mapped to canonical names. -/
def EXERCISE_ALIASES : List (String × String) :=
  [("flat bb bench press", "bench press"),
   ("flat bb bench", "bench press"),
   ("bb bench press", "bench press"),
   ("bb bench", "bench press"),
   ("barbell bench", "bench press"),
   ("barbell bench press", "bench press"),
   ("flat bench", "bench press"),
   ("flat bench press", "bench press"),
   ("paused bb bench", "bench press"),
   ("paused bench", "bench press"),
   ("flat db press", "db bench press"),
   ("flat db bench", "db bench press"),
   ("flat db bench press", "db bench press"),
   ("db flat bench", "db bench press"),
   ("db press", "db bench press"),
   ("db bench", "db bench press"),
   ("dumbbell bench", "db bench press"),
   ("db incline press", "incline db press"),
   ("incline db bench", "incline db press"),
   ("incline db bench press", "incline db press"),
   ("incline chest press machine", "incline press"),
   ("bb squat", "squat"),
   ("barbell squat", "squat"),
   ("back squat", "squat"),
   ("bb back squat", "squat"),
   ("sumo bb squat", "sumo squat"),
   ("sumo squat", "sumo squat"),
   ("conventional deadlift", "deadlift"),
   ("bb deadlift", "deadlift"),
   ("barbell deadlift", "deadlift"),
   ("sumo deadlift", "sumo deadlift"),
   ("rdl", "romanian deadlift"),
   ("db rdl", "db romanian deadlift"),
   ("military press", "overhead press"),
   ("ohp", "overhead press"),
   ("bb overhead press", "overhead press"),
   ("bb military press", "overhead press"),
   ("standing press", "overhead press"),
   ("db shoulder press", "db overhead press"),
   ("seated shoulder press", "db overhead press"),
   ("db ohp", "db overhead press"),
   ("bb row", "barbell row"),
   ("bb-row", "barbell row"),
   ("bb-underhand row", "barbell row"),
   ("underhand bb row", "barbell row"),
   ("bent over row", "barbell row"),
   ("pendlay row", "barbell row"),
   ("t-bar row", "t-bar row"),
   ("chest supported db rows", "db row"),
   ("chest supported db row", "db row"),
   ("cable row", "cable row"),
   ("seated cable row", "cable row")]

/-- `KEY_COMPOUND_LIFTS`. -/
def KEY_COMPOUND_LIFTS : List String :=
  ["bench press", "db bench press", "squat", "hack squat",
   "deadlift", "sumo deadlift", "romanian deadlift"]

/-- `BIG_THREE_LIFTS`. -/
def BIG_THREE_LIFTS : List String := ["bench press", "squat", "deadlift"]

/-- `ACCESSORY_LIFTS` (insertion order of the dict). -/
def ACCESSORY_LIFTS : List (String × List String) :=
  [("db press", ["db press", "dumbbell press", "flat db press", "incline db press"]),
   ("lat pulldown", ["lat pulldown", "lat pull down", "lat pull-down", "cable lat pulldown"]),
   ("pull-ups", ["pull-ups", "pullups", "pull ups", "chin-ups", "chinups", "chin ups"]),
   ("push-ups", ["push-ups", "pushups", "push ups"]),
   ("helms row", ["helms row", "helm row", "chest supported row"])]

/-- `normalize_exercise_name`. -/
def normalize_exercise_name (name : String) : String :=
  let name_lower := sTrim (sLower name)
  match EXERCISE_ALIASES.lookup name_lower with
  | some canonical => canonical
  | none => name_lower

/-- `is_key_compound_lift`. -/
def is_key_compound_lift (name : String) : Bool :=
  KEY_COMPOUND_LIFTS.contains (normalize_exercise_name name)

/-- `filter_cardio_workouts`. -/
def filter_cardio_workouts (ws : List LiftingWorkout) : List LiftingWorkout :=
  ws.filter (fun w => sLower w.muscle_groups != "cardio")

/-- `startsWithL p l`: `l` begins with `p`. -/
def startsWithL : List Char → List Char → Bool
  | [], _ => true
  | _ :: _, [] => false
  | a :: as, b :: bs => a == b && startsWithL as bs

/-- `occursIn p l`: `p` occurs as a contiguous sublist of `l`. -/
def occursIn (p : List Char) : List Char → Bool
  | [] => p.isEmpty
  | c :: rest => startsWithL p (c :: rest) || occursIn p rest

/-- Python substring containment (`p in s`). -/
def strContains (s p : String) : Bool := occursIn p.toList s.toList

/-! ## Estimated one-rep max -/

/-- `calculate_estimated_1rm`: Brzycki formula with out-of-range pass-through. -/
def calculate_estimated_1rm (weight : ℚ) (reps : ℤ) : ℚ :=
  if reps ≤ 0 ∨ 37 ≤ reps then weight
  else weight * (36 / ((37 : ℚ) - (reps : ℚ)))

/-! ## Insertion-ordered dictionaries -/

/-- Update-or-insert on an association list, modelling Python dict assignment
`m[k] = f(m.get(k))`: existing keys keep their position, fresh keys are
appended at the end (insertion order). -/
def upsert {κ β : Type} [DecidableEq κ] (m : List (κ × β)) (k : κ) (f : Option β → β) :
    List (κ × β) :=
  match m with
  | [] => [(k, f none)]
  | (k₀, v) :: rest =>
    if k₀ = k then (k₀, f (some v)) :: rest else (k₀, v) :: upsert rest k f

/-- Lookup in an association list (first match), modelling `m.get(k)`. -/
def alookup {κ β : Type} [DecidableEq κ] (k : κ) : List (κ × β) → Option β
  | [] => none
  | (k₀, v) :: rest => if k₀ = k then some v else alookup k rest

/-- Keys of an association list, in order. -/
def akeys {κ β : Type} (m : List (κ × β)) : List κ := m.map Prod.fst

/-- The record-tracking fold shared by the PR calculators: each item is
upserted into the dict under its key. -/
def afold {α κ β : Type} [DecidableEq κ] (key : α → κ) (combine : Option β → α → β)
    (l : List α) (m : List (κ × β)) : List (κ × β) :=
  l.foldl (fun m o => upsert m (key o) (fun c => combine c o)) m

/-! ## Occurrences and small helpers -/

/-- One exercise occurrence: an exercise set paired with its workout's date.
The nested loops `for workout in workouts: for exercise in workout.exercises`
are modelled as one pass over this flattened list. -/
structure Occ where
  name : String
  weight_lbs : ℚ
  reps : ℤ
  rpe : Option ℚ
  date : Date
deriving DecidableEq, Repr

/-- Flatten workouts into their exercise occurrences, in program order. -/
def occList (ws : List LiftingWorkout) : List Occ :=
  ws.bind fun w =>
    w.exercises.map fun e => ⟨e.name, e.weight_lbs, e.reps, e.rpe, w.date⟩

/-- Python `s.lower().strip()`. -/
def lowTrim (s : String) : String := sTrim (sLower s)

/-- `min` of a rational list (0 on empty; all uses are on non-empty lists). -/
def qMin : List ℚ → ℚ
  | [] => 0
  | x :: xs => xs.foldl min x

/-- `max` of a rational list (0 on empty; all uses are on non-empty lists). -/
def qMax : List ℚ → ℚ
  | [] => 0
  | x :: xs => xs.foldl max x

/-- Python `min(l, key=k)`: first element with minimal key. -/
def minByKeyQ {α : Type} (k : α → ℚ) : List α → Option α
  | [] => none
  | x :: xs => some (xs.foldl (fun b c => if k c < k b then c else b) x)

/-- Python `max(l, key=k)`: first element with maximal key. -/
def maxByKeyQ {α : Type} (k : α → ℚ) : List α → Option α
  | [] => none
  | x :: xs => some (xs.foldl (fun b c => if k b < k c then c else b) x)

/-! ## Sort relations (Python `sorted` is a stable sort; so is
`List.insertionSort`, which inserts earlier elements before later ties) -/

/-- Ascending workout-date order. -/
def workoutDateLe (a b : LiftingWorkout) : Prop := a.date.ord ≤ b.date.ord

instance : DecidableRel workoutDateLe :=
  fun a b => inferInstanceAs (Decidable (a.date.ord ≤ b.date.ord))

instance : IsTotal LiftingWorkout workoutDateLe := ⟨fun a b => le_total a.date.ord b.date.ord⟩

instance : IsTrans LiftingWorkout workoutDateLe := ⟨fun _ _ _ h h' => le_trans h h'⟩

/-- Ascending activity-date order. -/
def activityDateLe (a b : StravaActivity) : Prop := a.date.ord ≤ b.date.ord

instance : DecidableRel activityDateLe :=
  fun a b => inferInstanceAs (Decidable (a.date.ord ≤ b.date.ord))

instance : IsTotal StravaActivity activityDateLe := ⟨fun a b => le_total a.date.ord b.date.ord⟩

instance : IsTrans StravaActivity activityDateLe := ⟨fun _ _ _ h h' => le_trans h h'⟩

/-- Ascending lexicographic order on `(year, week)`-keyed dict items,
modelling `sorted(d.items())` (keys are distinct, so values never compared). -/
def pairKeyLe {β : Type} (a b : (ℤ × ℤ) × β) : Prop :=
  a.1.1 < b.1.1 ∨ (a.1.1 = b.1.1 ∧ a.1.2 ≤ b.1.2)

instance {β : Type} : DecidableRel (pairKeyLe (β := β)) :=
  fun a b => inferInstanceAs (Decidable (_ ∨ _))

/-! ## Personal records (`calculate_personal_records`) -/

/-- Value stored per exercise name: the `(weight_lbs, reps, date)` tuple. -/
structure PRVal where
  weight : ℚ
  reps : ℤ
  date : Date
deriving DecidableEq, Repr

/-- One entry of the personal-records list. -/
structure PRRecord where
  exercise : String
  max_weight : ℚ
  reps : ℤ
  date : Date
deriving DecidableEq, Repr

/-- Dict key: the raw exercise name lower-cased and trimmed. -/
def occKeyRaw (o : Occ) : String := lowTrim o.name

/-- `if current is None or exercise.weight_lbs > current[0]: replace`. -/
def prCombine (c : Option PRVal) (o : Occ) : PRVal :=
  match c with
  | none => ⟨o.weight_lbs, o.reps, o.date⟩
  | some cur => if cur.weight < o.weight_lbs then ⟨o.weight_lbs, o.reps, o.date⟩ else cur

/-- Descending order on `max_weight` (`sorted(..., reverse=True)`). -/
def prDesc (a b : PRRecord) : Prop := b.max_weight ≤ a.max_weight

instance : DecidableRel prDesc :=
  fun a b => inferInstanceAs (Decidable (b.max_weight ≤ a.max_weight))

instance : IsTotal PRRecord prDesc := ⟨fun a b => (le_total b.max_weight a.max_weight)⟩

instance : IsTrans PRRecord prDesc := ⟨fun _ _ _ h h' => le_trans h' h⟩

/-- `calculate_personal_records`. -/
def calculate_personal_records (ws : List LiftingWorkout) : List PRRecord :=
  let m := afold occKeyRaw prCombine (occList ws) []
  let prs := m.map fun kv =>
    { exercise := kv.1, max_weight := kv.2.weight, reps := kv.2.reps, date := kv.2.date }
  List.insertionSort prDesc prs

/-! ## Rep-range records (`calculate_rep_range_records`) -/

/-- One rep-range PR record (the stored `estimated_1rm` is rounded to one
decimal place, exactly as in the source). -/
structure RRRecord where
  exercise : String
  weight : ℚ
  reps : ℤ
  rpe : Option ℚ
  date : Date
  estimated_1rm : ℚ
deriving DecidableEq, Repr

/-- Dict key: the normalized exercise name. -/
def occKeyNorm (o : Occ) : String := normalize_exercise_name o.name

/-- The rep-range and key-lift filter applied inside the loop. -/
def rrEligible (min_reps max_reps : ℤ) (key_lifts_only : Bool) (o : Occ) : Bool :=
  min_reps ≤ o.reps && o.reps ≤ max_reps && (!key_lifts_only || is_key_compound_lift o.name)

/-- The record built for an occurrence (rounded estimated 1RM stored). -/
def rrMk (o : Occ) : RRRecord :=
  { exercise := normalize_exercise_name o.name, weight := o.weight_lbs, reps := o.reps,
    rpe := o.rpe, date := o.date,
    estimated_1rm := pyRound (calculate_estimated_1rm o.weight_lbs o.reps) 1 }

/-- `if current is None or estimated_1rm > current["estimated_1rm"]: replace` —
note the fresh *unrounded* value is compared against the stored *rounded* one. -/
def rrCombine (c : Option RRRecord) (o : Occ) : RRRecord :=
  match c with
  | none => rrMk o
  | some cur =>
    if cur.estimated_1rm < calculate_estimated_1rm o.weight_lbs o.reps then rrMk o else cur

/-- Descending order on the stored (rounded) `estimated_1rm`. -/
def rrDesc (a b : RRRecord) : Prop := b.estimated_1rm ≤ a.estimated_1rm

instance : DecidableRel rrDesc :=
  fun a b => inferInstanceAs (Decidable (b.estimated_1rm ≤ a.estimated_1rm))

instance : IsTotal RRRecord rrDesc := ⟨fun a b => (le_total b.estimated_1rm a.estimated_1rm)⟩

instance : IsTrans RRRecord rrDesc := ⟨fun _ _ _ h h' => le_trans h' h⟩

/-- `calculate_rep_range_records`. -/
def calculate_rep_range_records (ws : List LiftingWorkout)
    (min_reps : ℤ := 8) (max_reps : ℤ := 10) (key_lifts_only : Bool := true) :
    List RRRecord :=
  let occs := (occList ws).filter (rrEligible min_reps max_reps key_lifts_only)
  let m := afold occKeyNorm rrCombine occs []
  List.insertionSort rrDesc (m.map Prod.snd)

/-! ## Running streaks (`calculate_running_streaks`) -/

/-- Run filter used throughout the running calculators. -/
def runsOf (activities : List StravaActivity) : List StravaActivity :=
  activities.filter (fun a => a.activity_type == ActivityType.run)

/-- The result dict: `last_run_date` is only present in the non-empty branch. -/
structure StreakStats where
  current_streak : ℕ
  longest_streak : ℕ
  last_run_date : Option Date := none
deriving DecidableEq, Repr

/-- The streak loop: carries (current, longest, previous date); `diff` is
`(runs[i].date - runs[i-1].date).days`. -/
def streakStep (acc : ℕ × ℕ × Date) (r : StravaActivity) : ℕ × ℕ × Date :=
  if r.date.ord - acc.2.2.ord = 1 then (acc.1 + 1, max acc.2.1 (acc.1 + 1), r.date)
  else if 1 < r.date.ord - acc.2.2.ord then (1, acc.2.1, r.date)
  else (acc.1, acc.2.1, r.date)

/-- `calculate_running_streaks`.  `today` is the value of
`datetime.now().date()`, which the source reads from the wall clock. -/
def calculate_running_streaks (today : Date) (activities : List StravaActivity) :
    StreakStats :=
  let runs := List.insertionSort activityDateLe (runsOf activities)
  match runs with
  | [] => { current_streak := 0, longest_streak := 0 }
  | r0 :: rest =>
    let res := rest.foldl streakStep (1, 1, r0.date)
    let days_since_last := today.ord - res.2.2.ord
    let current := if 1 < days_since_last then 0 else res.1
    { current_streak := current, longest_streak := res.2.1,
      last_run_date := some res.2.2 }

/-! ## Pace zones (`calculate_pace_zones`) -/

/-- The five zone names, in the dict's insertion order. -/
inductive ZoneName
  | easy | steady | tempo | threshold | speed
deriving DecidableEq, Repr

/-- First matching zone, scanning the dict in insertion order and testing
`zone["min"] <= pace < zone["max"]` (easy's upper bound is `float("inf")`,
against which every float compares strictly less). -/
def zoneOf (pace : ℚ) : Option ZoneName :=
  if 540 ≤ pace then some .easy
  else if 480 ≤ pace ∧ pace < 540 then some .steady
  else if 420 ≤ pace ∧ pace < 480 then some .tempo
  else if 360 ≤ pace ∧ pace < 420 then some .threshold
  else if 0 ≤ pace ∧ pace < 360 then some .speed
  else none

/-- Per-zone accumulator. -/
structure ZoneData where
  count : ℕ := 0
  miles : ℚ := 0
deriving DecidableEq, Repr

/-- All five zone accumulators. -/
structure ZoneTotals where
  easy : ZoneData := {}
  steady : ZoneData := {}
  tempo : ZoneData := {}
  threshold : ZoneData := {}
  speed : ZoneData := {}
deriving DecidableEq, Repr

/-- Add one run (with distance `d`) to zone `zn`. -/
def ZoneTotals.add (z : ZoneTotals) (zn : ZoneName) (d : ℚ) : ZoneTotals :=
  match zn with
  | .easy => { z with easy := ⟨z.easy.count + 1, z.easy.miles + d⟩ }
  | .steady => { z with steady := ⟨z.steady.count + 1, z.steady.miles + d⟩ }
  | .tempo => { z with tempo := ⟨z.tempo.count + 1, z.tempo.miles + d⟩ }
  | .threshold => { z with threshold := ⟨z.threshold.count + 1, z.threshold.miles + d⟩ }
  | .speed => { z with speed := ⟨z.speed.count + 1, z.speed.miles + d⟩ }

/-- Runs with a truthy pace (`a.pace_seconds` used as the filter condition). -/
def paceZoneRuns (activities : List StravaActivity) : List StravaActivity :=
  activities.filter (fun a => a.activity_type == ActivityType.run && qTruthy a.pace_seconds)

/-- One iteration of the accumulation loop of `calculate_pace_zones`. -/
def zoneStep (z : ZoneTotals) (r : StravaActivity) : ZoneTotals :=
  match r.pace_seconds with
  | none => z
  | some p =>
    match zoneOf p with
    | some zn => z.add zn r.distance_miles
    | none => z

/-- The accumulation loop of `calculate_pace_zones`. -/
def zoneTotalsOf (runs : List StravaActivity) : ZoneTotals :=
  runs.foldl zoneStep {}

/-- Pace formatting (`_format_pace`). -/
def format_pace (seconds : ℚ) : String :=
  if seconds ≤ 0 then "N/A" else formatMinSec seconds

/-- Pace-range formatting (`_format_pace_range`; `none` stands for
`float("inf")`). -/
def format_pace_range (min_secs : ℚ) (max_secs : Option ℚ) : String :=
  let minStr := if 0 < min_secs then format_pace min_secs else "<6:00"
  let maxStr := match max_secs with | some m => format_pace m | none => "9:00+"
  match max_secs with
  | none => ">" ++ minStr
  | some _ => if min_secs = 0 then "<" ++ maxStr else maxStr ++ " - " ++ minStr

/-- One entry of the pace-zone report. -/
structure PaceZoneEntry where
  zone : String
  pace_range : String
  count : ℕ
  miles : ℚ
  percentage : ℚ
deriving DecidableEq, Repr

/-- `calculate_pace_zones`. -/
def calculate_pace_zones (activities : List StravaActivity) : List PaceZoneEntry :=
  let runs := paceZoneRuns activities
  let z := zoneTotalsOf runs
  let n := runs.length
  let pct : ℕ → ℚ := fun c => if n = 0 then 0 else pyRound ((c : ℚ) / (n : ℚ) * 100) 1
  [{ zone := "easy", pace_range := format_pace_range 540 none,
     count := z.easy.count, miles := pyRound z.easy.miles 1, percentage := pct z.easy.count },
   { zone := "steady", pace_range := format_pace_range 480 (some 540),
     count := z.steady.count, miles := pyRound z.steady.miles 1, percentage := pct z.steady.count },
   { zone := "tempo", pace_range := format_pace_range 420 (some 480),
     count := z.tempo.count, miles := pyRound z.tempo.miles 1, percentage := pct z.tempo.count },
   { zone := "threshold", pace_range := format_pace_range 360 (some 420),
     count := z.threshold.count, miles := pyRound z.threshold.miles 1, percentage := pct z.threshold.count },
   { zone := "speed", pace_range := format_pace_range 0 (some 360),
     count := z.speed.count, miles := pyRound z.speed.miles 1, percentage := pct z.speed.count }]

/-! ## Strength standards (`calculate_strength_standards`) -/

/-- One strength-standards record. -/
structure StdRecord where
  lift : String
  exercise : String
  weight : ℚ
  reps : ℤ
  estimated_1rm : ℚ
  bw_ratio : ℚ
  date : Date
deriving DecidableEq, Repr

/-- The big-three substring classifier (`if`/`elif` chain, first match wins). -/
def categorize_big3 (name_lower : String) : Option String :=
  if strContains name_lower "bench" || strContains name_lower "chest press" ||
     strContains name_lower "db press" || strContains name_lower "flat db" then
    some "Bench Press"
  else if strContains name_lower "squat" then some "Squat"
  else if strContains name_lower "deadlift" || strContains name_lower "rdl" then
    some "Deadlift"
  else none

/-- Python float division, which raises `ZeroDivisionError` on a zero divisor. -/
def pyDivE (a b : ℚ) : Except Unit ℚ :=
  if b = 0 then .error () else .ok (a / b)

/-- One loop iteration of `calculate_strength_standards`: the division by
`bodyweight` happens only when a record is created or replaced. -/
def stdStep (bodyweight : ℚ) (m : List (String × StdRecord)) (o : Occ) :
    Except Unit (List (String × StdRecord)) :=
  match categorize_big3 (lowTrim o.name) with
  | none => .ok m
  | some category =>
    let e1rm := calculate_estimated_1rm o.weight_lbs o.reps
    let replace : Bool :=
      match alookup category m with
      | none => true
      | some cur => cur.estimated_1rm < e1rm
    if replace then
      match pyDivE e1rm bodyweight with
      | .error e => .error e
      | .ok q =>
        .ok (upsert m category (fun _ =>
          { lift := category, exercise := o.name, weight := o.weight_lbs, reps := o.reps,
            estimated_1rm := pyRound e1rm 1, bw_ratio := pyRound q 2, date := o.date }))
    else .ok m

/-- Descending order on `bw_ratio`. -/
def stdDesc (a b : StdRecord) : Prop := b.bw_ratio ≤ a.bw_ratio

instance : DecidableRel stdDesc :=
  fun a b => inferInstanceAs (Decidable (b.bw_ratio ≤ a.bw_ratio))

instance : IsTotal StdRecord stdDesc := ⟨fun a b => (le_total b.bw_ratio a.bw_ratio)⟩

instance : IsTrans StdRecord stdDesc := ⟨fun _ _ _ h h' => le_trans h' h⟩

/-- `calculate_strength_standards`. -/
def calculate_strength_standards (ws : List LiftingWorkout) (bodyweight : ℚ := 180) :
    Except Unit (List StdRecord) :=
  match (occList ws).foldlM (stdStep bodyweight) [] with
  | .error e => .error e
  | .ok m => .ok (List.insertionSort stdDesc (m.map Prod.snd))

/-! ## Key-lift PRs (`calculate_key_lift_prs`) -/

/-- The three named rep bands, in the `rep_ranges` dict's order. -/
inductive Band
  | strength | hypertrophy | endurance
deriving DecidableEq, Repr

/-- First band whose inclusive range contains `reps` (loop with `break`). -/
def bandOf (reps : ℤ) : Option Band :=
  if 1 ≤ reps ∧ reps ≤ 5 then some .strength
  else if 6 ≤ reps ∧ reps ≤ 10 then some .hypertrophy
  else if 11 ≤ reps ∧ reps ≤ 20 then some .endurance
  else none

/-- A per-band best record (stored `estimated_1rm` rounded to one decimal). -/
structure BandRecord where
  weight : ℚ
  reps : ℤ
  rpe : Option ℚ
  date : Date
  estimated_1rm : ℚ
deriving DecidableEq, Repr

/-- The "recent" record tracked over the last 14 days. -/
structure RecentRecord where
  weight : ℚ
  reps : ℤ
  rpe : Option ℚ
  date : Date
deriving DecidableEq, Repr

/-- The inner per-lift dict of band bests. -/
structure BandSet where
  strength : Option BandRecord := none
  hypertrophy : Option BandRecord := none
  endurance : Option BandRecord := none
deriving DecidableEq, Repr

/-- Read one band field. -/
def BandSet.get (bs : BandSet) : Band → Option BandRecord
  | .strength => bs.strength
  | .hypertrophy => bs.hypertrophy
  | .endurance => bs.endurance

/-- Write one band field. -/
def BandSet.set (bs : BandSet) : Band → BandRecord → BandSet
  | .strength, r => { bs with strength := some r }
  | .hypertrophy, r => { bs with hypertrophy := some r }
  | .endurance, r => { bs with endurance := some r }

/-- The band record built for an occurrence. -/
def klMkBand (o : Occ) (e1rm : ℚ) : BandRecord :=
  { weight := o.weight_lbs, reps := o.reps, rpe := o.rpe, date := o.date,
    estimated_1rm := pyRound e1rm 1 }

/-- The recent record built for an occurrence. -/
def klMkRecent (o : Occ) : RecentRecord :=
  { weight := o.weight_lbs, reps := o.reps, rpe := o.rpe, date := o.date }

/-- One loop iteration of `calculate_key_lift_prs`: update the band bests
(comparing the fresh unrounded 1RM against the stored rounded one) and the
recent-lift dict (date comparison models the `isoformat()` string
comparison, which agrees with chronological order for zero-padded years). -/
def klStep (now : Date) (acc : List (String × BandSet) × List (String × RecentRecord))
    (o : Occ) : List (String × BandSet) × List (String × RecentRecord) :=
  let nm := normalize_exercise_name o.name
  if BIG_THREE_LIFTS.contains nm then
    let e1rm := calculate_estimated_1rm o.weight_lbs o.reps
    let lifts :=
      match bandOf o.reps with
      | none => acc.1
      | some b =>
        upsert acc.1 nm (fun c =>
          let bs := c.getD {}
          match bs.get b with
          | none => bs.set b (klMkBand o e1rm)
          | some cur =>
            if cur.estimated_1rm < e1rm then bs.set b (klMkBand o e1rm) else bs)
    let recents :=
      if now.ord - 14 ≤ o.date.ord then
        upsert acc.2 nm (fun c =>
          match c with
          | none => klMkRecent o
          | some cur => if cur.date.ord < o.date.ord then klMkRecent o else cur)
      else acc.2
    (lifts, recents)
  else acc

/-- One output record of `calculate_key_lift_prs`. -/
structure KeyLiftRecord where
  exercise : String
  strength_pr : Option BandRecord
  hypertrophy_pr : Option BandRecord
  endurance_pr : Option BandRecord
  recent : Option RecentRecord
  best_estimated_1rm : ℚ
deriving DecidableEq, Repr

/-- `best_estimated_1rm`: strict-greater fold from 0 over the present bands
(the value is independent of the iteration order of `ranges.values()`). -/
def bestOfBands (bs : BandSet) : ℚ :=
  [bs.strength, bs.hypertrophy, bs.endurance].foldl
    (fun acc ob =>
      match ob with
      | some b => if acc < b.estimated_1rm then b.estimated_1rm else acc
      | none => acc)
    0

/-- Descending order on `best_estimated_1rm`. -/
def klDesc (a b : KeyLiftRecord) : Prop := b.best_estimated_1rm ≤ a.best_estimated_1rm

instance : DecidableRel klDesc :=
  fun a b => inferInstanceAs (Decidable (b.best_estimated_1rm ≤ a.best_estimated_1rm))

instance : IsTotal KeyLiftRecord klDesc :=
  ⟨fun a b => (le_total b.best_estimated_1rm a.best_estimated_1rm)⟩

instance : IsTrans KeyLiftRecord klDesc := ⟨fun _ _ _ h h' => le_trans h' h⟩

/-- `calculate_key_lift_prs`.  `now` is the value of `datetime.now().date()`,
read from the wall clock in the source. -/
def calculate_key_lift_prs (now : Date) (ws : List LiftingWorkout) : List KeyLiftRecord :=
  let res := (occList ws).foldl (klStep now) ([], [])
  let results := res.1.map fun kv =>
    { exercise := kv.1, strength_pr := kv.2.strength, hypertrophy_pr := kv.2.hypertrophy,
      endurance_pr := kv.2.endurance, recent := alookup kv.1 res.2,
      best_estimated_1rm := bestOfBands kv.2 }
  List.insertionSort klDesc results

/-! ## Accessory PRs (`calculate_accessory_prs`) -/

/-- One accessory record; `estimated_1rm` is present only for weighted
categories (`current.get("estimated_1rm", 0)` defaults it to 0). -/
structure AccRecord where
  lift : String
  exercise : String
  weight : ℚ
  reps : ℤ
  estimated_1rm : Option ℚ := none
  date : Date
deriving DecidableEq, Repr

/-- First accessory category whose pattern list matches (substring test). -/
def accCategory (name_lower : String) : Option String :=
  (ACCESSORY_LIFTS.find? (fun kv => kv.2.any (fun p => strContains name_lower p))).map
    Prod.fst

/-- Per-exercise step of `calculate_accessory_prs`. -/
def accExerciseStep (date : Date) (m : List (String × AccRecord)) (e : Exercise) :
    List (String × AccRecord) :=
  let name_lower := lowTrim e.name
  match accCategory name_lower with
  | none => m
  | some category =>
    if category = "pull-ups" ∨ category = "push-ups" then
      match alookup category m with
      | none =>
        upsert m category (fun _ =>
          { lift := category, exercise := e.name, weight := e.weight_lbs, reps := e.reps,
            date := date })
      | some cur =>
        if cur.reps < e.reps then
          upsert m category (fun _ =>
            { lift := category, exercise := e.name, weight := e.weight_lbs, reps := e.reps,
              date := date })
        else m
    else
      let e1rm := calculate_estimated_1rm e.weight_lbs e.reps
      let replace :=
        match alookup category m with
        | none => true
        | some cur => (cur.estimated_1rm.getD 0) < e1rm
      if replace then
        upsert m category (fun _ =>
          { lift := category, exercise := e.name, weight := e.weight_lbs, reps := e.reps,
            estimated_1rm := some (pyRound e1rm 1), date := date })
      else m

/-- Per-workout step: the dedicated push-up/pull-up columns first, then the
exercise entries. -/
def accWorkoutStep (m : List (String × AccRecord)) (w : LiftingWorkout) :
    List (String × AccRecord) :=
  let m :=
    match w.pushups with
    | some p =>
      if 0 < p then
        match alookup "push-ups" m with
        | none =>
          upsert m "push-ups" (fun _ =>
            { lift := "push-ups", exercise := "push-ups", weight := 0, reps := p,
              date := w.date })
        | some cur =>
          if cur.reps < p then
            upsert m "push-ups" (fun _ =>
              { lift := "push-ups", exercise := "push-ups", weight := 0, reps := p,
                date := w.date })
          else m
      else m
    | none => m
  let m :=
    match w.pullups with
    | some p =>
      if 0 < p then
        match alookup "pull-ups" m with
        | none =>
          upsert m "pull-ups" (fun _ =>
            { lift := "pull-ups", exercise := "pull-ups", weight := 0, reps := p,
              date := w.date })
        | some cur =>
          if cur.reps < p then
            upsert m "pull-ups" (fun _ =>
              { lift := "pull-ups", exercise := "pull-ups", weight := 0, reps := p,
                date := w.date })
          else m
      else m
    | none => m
  w.exercises.foldl (accExerciseStep w.date) m

/-- `calculate_accessory_prs` (insertion order, no sort). -/
def calculate_accessory_prs (ws : List LiftingWorkout) : List AccRecord :=
  (ws.foldl accWorkoutStep []).map Prod.snd

/-! ## Training frequency (`calculate_training_frequency`) -/

/-- Result dict of `calculate_training_frequency` (the last two keys
are absent in the empty branch). -/
structure FrequencyStats where
  avg_days_between : ℚ
  workouts_per_week : ℚ
  total_workouts : Option ℕ := none
  muscle_group_frequency : Option (List (String × ℕ)) := none
deriving DecidableEq, Repr

/-- `calculate_training_frequency`. -/
def calculate_training_frequency (ws : List LiftingWorkout) : FrequencyStats :=
  match ws with
  | [] => { avg_days_between := 0, workouts_per_week := 0 }
  | w0 :: _ =>
    let sw := List.insertionSort workoutDateLe ws
    let gaps := (sw.zip (sw.drop 1)).map (fun p => p.2.date.ord - p.1.date.ord)
    let avg_gap : ℚ :=
      if gaps.length = 0 then 0 else ((gaps.sum : ℤ) : ℚ) / (gaps.length : ℚ)
    let wpw : ℚ :=
      if 2 ≤ sw.length then
        let total_days : ℤ := (sw.getLastD w0).date.ord - (sw.headD w0).date.ord
        let weeks : ℚ := max ((total_days : ℚ) / 7) 1
        (ws.length : ℚ) / weeks
      else (ws.length : ℚ)
    let group_counts := ws.foldl (fun m w => upsert m w.muscle_groups (fun c => c.getD 0 + 1)) []
    { avg_days_between := pyRound avg_gap 1, workouts_per_week := pyRound wpw 1,
      total_workouts := some ws.length, muscle_group_frequency := some group_counts }

/-! ## Volume by muscle group (`calculate_volume_by_muscle_group`) -/

/-- Descending order on summed volume. -/
def volDesc (a b : String × ℚ) : Prop := b.2 ≤ a.2

instance : DecidableRel volDesc := fun a b => inferInstanceAs (Decidable (b.2 ≤ a.2))

/-- `calculate_volume_by_muscle_group` (a dict in descending-volume order,
modelled as an ordered list of pairs). -/
def calculate_volume_by_muscle_group (ws : List LiftingWorkout) : List (String × ℚ) :=
  let m := ws.foldl (fun m w => upsert m w.muscle_groups (fun c => c.getD 0 + w.total_volume)) []
  List.insertionSort volDesc m

/-! ## Weekly volume and the rolling trend -/

/-- Per-week accumulator of `calculate_weekly_volume` (`date` is set on the
first workout of the group). -/
structure WVAcc where
  volume : ℚ := 0
  workouts : ℕ := 0
  date : Option Date := none
deriving DecidableEq, Repr

/-- One output entry of `calculate_weekly_volume`; the `f"{year}-W{week:02d}"`
label is kept as its two integer components (the rendering is injective). -/
structure WeeklyVolumeEntry where
  year : ℤ
  week : ℤ
  volume : ℚ
  workouts : ℕ
  date : Option Date
deriving DecidableEq, Repr

/-- `calculate_weekly_volume`: group by ISO (year, week), then sort by key. -/
def calculate_weekly_volume (ws : List LiftingWorkout) : List WeeklyVolumeEntry :=
  match ws with
  | [] => []
  | _ :: _ =>
    let m := ws.foldl
      (fun m w =>
        upsert m w.date.isocal (fun c =>
          let a : WVAcc := c.getD {}
          { volume := a.volume + w.total_volume, workouts := a.workouts + 1,
            date := match a.date with | none => some w.date | some d => some d }))
      []
    (List.insertionSort pairKeyLe m).map fun kv =>
      { year := kv.1.1, week := kv.1.2, volume := pyRound kv.2.volume 0,
        workouts := kv.2.workouts, date := kv.2.date }

/-- One entry of the volume trend: a weekly entry plus the `rolling_avg` key
(`none` both for the `None` value and for the short-input branch in which the
key is never added). -/
structure TrendEntry where
  year : ℤ
  week : ℤ
  volume : ℚ
  workouts : ℕ
  date : Option Date
  rolling_avg : Option ℚ
deriving DecidableEq, Repr

/-- Lift a weekly entry into a trend entry. -/
def mkTrendEntry (e : WeeklyVolumeEntry) (r : Option ℚ) : TrendEntry :=
  { year := e.year, week := e.week, volume := e.volume, workouts := e.workouts,
    date := e.date, rolling_avg := r }

/-- `calculate_exercise_volume_trend`.  The slice `weekly[i-w+1 : i+1]` is
`(weekly.drop (i+1-w)).take w`; its length (the divisor `len(window)`) equals
`w` whenever `w ≤ len` and `w - 1 ≤ i < len`.  (Python raises
`ZeroDivisionError` for `window_weeks = 0`; only positive windows are used or
claimed, so the model is total.) -/
def calculate_exercise_volume_trend (ws : List LiftingWorkout) (window_weeks : ℕ := 4) :
    List TrendEntry :=
  let weekly := calculate_weekly_volume ws
  if weekly.length < window_weeks then weekly.map (fun e => mkTrendEntry e none)
  else
    weekly.mapIdx fun i e =>
      if window_weeks - 1 ≤ i then
        let window := (weekly.drop (i + 1 - window_weeks)).take window_weeks
        let avg := ((window.map (fun x => x.volume)).sum) / (window.length : ℚ)
        mkTrendEntry e (some (pyRound avg 0))
      else mkTrendEntry e none

/-! ## All exercises (`get_all_exercises`) -/

/-- Ascending code-point order on strings (Python string comparison). -/
def strAsc (a b : String) : Prop := charListLt b.data a.data = false

instance : DecidableRel strAsc :=
  fun a b => inferInstanceAs (Decidable (charListLt b.data a.data = false))

/-- `get_all_exercises`: the set of lower-trimmed names, sorted ascending. -/
def get_all_exercises (ws : List LiftingWorkout) : List String :=
  List.insertionSort strAsc (((occList ws).map occKeyRaw).dedup)

/-! ## Aggregate lifting stats (`calculate_lifting_stats`) -/

/-- `LiftingStats` result record. -/
structure LiftingStats where
  total_workouts : ℕ
  total_volume_lbs : ℚ
  workout_distribution : List (String × ℕ)
  date_range_start : Date
  date_range_end : Date
  personal_records : List PRRecord := []
deriving DecidableEq, Repr

/-- First date with minimal ordinal (Python `min` on dates). -/
def minDate (d0 : Date) (ds : List Date) : Date :=
  ds.foldl (fun b d => if d.ord < b.ord then d else b) d0

/-- First date with maximal ordinal (Python `max` on dates). -/
def maxDate (d0 : Date) (ds : List Date) : Date :=
  ds.foldl (fun b d => if b.ord < d.ord then d else b) d0

/-- `calculate_lifting_stats`.  `now` is `datetime.now().date()` (wall clock
in the source), used only for the empty-input date range. -/
def calculate_lifting_stats (now : Date) (ws : List LiftingWorkout) : LiftingStats :=
  let lifting := filter_cardio_workouts ws
  match lifting with
  | [] =>
    { total_workouts := 0, total_volume_lbs := 0, workout_distribution := [],
      date_range_start := now, date_range_end := now }
  | w0 :: rest =>
    let total_volume := (lifting.map LiftingWorkout.total_volume).sum
    let dist := lifting.foldl (fun m w => upsert m w.muscle_groups (fun c => c.getD 0 + 1)) []
    { total_workouts := lifting.length,
      total_volume_lbs := pyRound total_volume 0,
      workout_distribution := dist,
      date_range_start := minDate w0.date (rest.map (fun w => w.date)),
      date_range_end := maxDate w0.date (rest.map (fun w => w.date)),
      personal_records := calculate_personal_records lifting }

/-! ## Aggregate running stats (`calculate_running_stats`) -/

/-- Pointer record for the fastest/longest run. -/
structure RunRef where
  name : String
  date : Date
  distance : ℚ
  pace : Option String
deriving DecidableEq, Repr

/-- `RunningStats` result record. -/
structure RunningStats where
  total_runs : ℕ
  total_miles : ℚ
  total_time_hours : ℚ
  total_elevation_feet : ℚ
  avg_distance : ℚ
  avg_pace : String
  fastest_pace : String
  longest_run_miles : ℚ
  runs_this_month : ℕ
  miles_this_month : ℚ
  fastest_run : Option RunRef := none
  longest_run : Option RunRef := none
deriving DecidableEq, Repr

/-- The key `r.pace_seconds or float("inf")` of the fastest-run `min`:
`none` stands for infinity (a falsy pace maps to infinity). -/
def paceKeyOrInf (r : StravaActivity) : Option ℚ :=
  if qTruthy r.pace_seconds then r.pace_seconds else none

/-- Strict comparison with `none` as plus infinity. -/
def optLtB : Option ℚ → Option ℚ → Bool
  | some a, some b => decide (a < b)
  | some _, none => true
  | none, _ => false

/-- Python `min(runs, key=lambda r: r.pace_seconds or float("inf"))`. -/
def minByPaceInf : List StravaActivity → Option StravaActivity
  | [] => none
  | r :: rest =>
    some (rest.foldl (fun b c => if optLtB (paceKeyOrInf c) (paceKeyOrInf b) then c else b) r)

/-- Build a fastest/longest pointer record. -/
def mkRunRef (r : StravaActivity) : RunRef :=
  { name := r.name, date := r.date, distance := r.distance_miles, pace := r.pace_per_mile }

/-- The truthy pace values of a run list
(`[r.pace_seconds for r in runs if r.pace_seconds]`). -/
def validPaces (runs : List StravaActivity) : List ℚ :=
  runs.filterMap fun r => if qTruthy r.pace_seconds then r.pace_seconds else none

/-- `calculate_running_stats`.  `now` is `datetime.now().date()` (wall clock
in the source), used for the current-month window. -/
def calculate_running_stats (now : Date) (activities : List StravaActivity) : RunningStats :=
  let runs := runsOf activities
  match runs with
  | [] =>
    { total_runs := 0, total_miles := 0, total_time_hours := 0, total_elevation_feet := 0,
      avg_distance := 0, avg_pace := "N/A", fastest_pace := "N/A", longest_run_miles := 0,
      runs_this_month := 0, miles_this_month := 0 }
  | r0 :: rest =>
    let total_miles := (runs.map (fun r => r.distance_miles)).sum
    let total_seconds := (runs.map (fun r => r.moving_time_seconds)).sum
    let total_elevation := (runs.map (fun r => r.elevation_gain_feet)).sum
    let valid_paces := validPaces runs
    let avg_pace_secs : ℚ :=
      if valid_paces.length = 0 then 0 else valid_paces.sum / (valid_paces.length : ℚ)
    let fastest_pace_secs : ℚ := if valid_paces.isEmpty then 0 else qMin valid_paces
    let month_start : Date := ⟨now.year, now.month, 1⟩
    let month_runs := runs.filter (fun r => month_start.ord ≤ r.date.ord)
    let fastest_run :=
      if valid_paces.isEmpty then none else (minByPaceInf runs).map mkRunRef
    let longest_run := (maxByKeyQ (fun r => r.distance_miles) runs).map mkRunRef
    { total_runs := runs.length,
      total_miles := pyRound total_miles 1,
      total_time_hours := pyRound ((total_seconds : ℚ) / 3600) 1,
      total_elevation_feet := pyRound total_elevation 0,
      avg_distance := pyRound (total_miles / (runs.length : ℚ)) 2,
      avg_pace := format_pace avg_pace_secs,
      fastest_pace := format_pace fastest_pace_secs,
      longest_run_miles := qMax ((r0 :: rest).map (fun r => r.distance_miles)),
      runs_this_month := month_runs.length,
      miles_this_month := pyRound ((month_runs.map (fun r => r.distance_miles)).sum) 1,
      fastest_run := fastest_run,
      longest_run := longest_run }

/-! ## Weekly and monthly mileage -/

/-- Per-week accumulator of `calculate_weekly_mileage`. -/
structure WMAcc where
  miles : ℚ := 0
  runs : ℕ := 0
  minutes : ℚ := 0
  date : Option Date := none
deriving DecidableEq, Repr

/-- One entry of the weekly-mileage report. -/
structure WeeklyMileageEntry where
  year : ℤ
  week : ℤ
  miles : ℚ
  runs : ℕ
  minutes : ℚ
  date : Option Date
deriving DecidableEq, Repr

/-- `calculate_weekly_mileage`. -/
def calculate_weekly_mileage (activities : List StravaActivity) : List WeeklyMileageEntry :=
  let runs := runsOf activities
  match runs with
  | [] => []
  | _ :: _ =>
    let m := runs.foldl
      (fun m r =>
        upsert m r.date.isocal (fun c =>
          let a : WMAcc := c.getD {}
          { miles := a.miles + r.distance_miles, runs := a.runs + 1,
            minutes := a.minutes + r.moving_time_minutes,
            date := match a.date with | none => some r.date | some d => some d }))
      []
    (List.insertionSort pairKeyLe m).map fun kv =>
      { year := kv.1.1, week := kv.1.2, miles := pyRound kv.2.miles 1,
        runs := kv.2.runs, minutes := pyRound kv.2.minutes 1, date := kv.2.date }

/-- Per-month accumulator of `calculate_monthly_mileage`. -/
structure MMAcc where
  miles : ℚ := 0
  runs : ℕ := 0
  minutes : ℚ := 0
deriving DecidableEq, Repr

/-- One entry of the monthly-mileage report; the `"%Y-%m"` label is kept as
its two integer components (the zero-padded rendering is injective and
order-preserving). -/
structure MonthlyMileageEntry where
  year : ℤ
  month : ℤ
  miles : ℚ
  runs : ℕ
  hours : ℚ
deriving DecidableEq, Repr

/-- `calculate_monthly_mileage`. -/
def calculate_monthly_mileage (activities : List StravaActivity) : List MonthlyMileageEntry :=
  let runs := runsOf activities
  match runs with
  | [] => []
  | _ :: _ =>
    let m := runs.foldl
      (fun m r =>
        upsert m (r.date.year, r.date.month) (fun c =>
          let a : MMAcc := c.getD {}
          { miles := a.miles + r.distance_miles, runs := a.runs + 1,
            minutes := a.minutes + r.moving_time_minutes }))
      []
    (List.insertionSort pairKeyLe m).map fun kv =>
      { year := kv.1.1, month := kv.1.2, miles := pyRound kv.2.miles 1,
        runs := kv.2.runs, hours := pyRound (kv.2.minutes / 60) 1 }

/-! ## Locations (`extract_locations`) -/

/-- The characters after the last occurrence of `c` (Python
`s.split(c)[-1]` for a single-character separator). -/
def afterLastChar (c : Char) (l : List Char) : List Char :=
  l.foldl (fun seg ch => if ch = c then [] else seg ++ [ch]) []

/-- Location label: text after the last `]` (lower-cased, stripped). -/
def locLabel (name : String) : String :=
  let n := sLower name
  if n.data.contains ']' then sTrim ⟨afterLastChar ']' n.data⟩ else sTrim n

/-- One entry of the locations report. -/
structure LocationEntry where
  name : String
  count : ℕ
  miles : ℚ
deriving DecidableEq, Repr

/-- Descending order on run count. -/
def locDesc (a b : LocationEntry) : Prop := b.count ≤ a.count

instance : DecidableRel locDesc := fun a b => inferInstanceAs (Decidable (b.count ≤ a.count))

/-- `extract_locations`. -/
def extract_locations (activities : List StravaActivity) : List LocationEntry :=
  let runs := runsOf activities
  let m := runs.foldl
    (fun m r =>
      let loc := locLabel r.name
      if loc = "" then m
      else
        upsert m loc (fun c =>
          let a : ℕ × ℚ := c.getD (0, 0)
          (a.1 + 1, a.2 + r.distance_miles)))
    []
  List.insertionSort locDesc
    (m.map fun kv => { name := kv.1, count := kv.2.1, miles := pyRound kv.2.2 1 })

/-! ## Exercise progression (`calculate_exercise_progression`) -/

/-- One progression entry. -/
structure ProgressionEntry where
  date : Date
  weight : ℚ
  reps : ℤ
  rpe : Option ℚ
  volume : ℚ
  estimated_1rm : ℚ
deriving DecidableEq, Repr

/-- `calculate_exercise_progression`. -/
def calculate_exercise_progression (ws : List LiftingWorkout) (exercise_name : String) :
    List ProgressionEntry :=
  let target := lowTrim exercise_name
  (List.insertionSort workoutDateLe ws).bind fun w =>
    w.exercises.filterMap fun e =>
      if lowTrim e.name = target then
        some { date := w.date, weight := e.weight_lbs, reps := e.reps, rpe := e.rpe,
               volume := e.volume,
               estimated_1rm := pyRound (calculate_estimated_1rm e.weight_lbs e.reps) 1 }
      else none

/-! ## Heart-rate stats (`calculate_heart_rate_stats`) -/

/-- Result of `calculate_heart_rate_stats`; only `available` is present in the
no-data branch. -/
structure HeartRateStats where
  available : Bool
  runs_with_hr : Option ℕ := none
  avg_heartrate : Option ℚ := none
  highest_avg_hr : Option ℚ := none
  lowest_avg_hr : Option ℚ := none
  max_heartrate_ever : Option ℤ := none
deriving DecidableEq, Repr

/-- `calculate_heart_rate_stats`. -/
def calculate_heart_rate_stats (activities : List StravaActivity) : HeartRateStats :=
  let runs_with_hr := activities.filter
    (fun a => a.activity_type == ActivityType.run && qTruthy a.average_heartrate)
  match runs_with_hr with
  | [] => { available := false }
  | _ :: _ =>
    let avg_hrs := runs_with_hr.filterMap (fun r => r.average_heartrate)
    let max_hrs := runs_with_hr.filterMap
      (fun r => if zTruthy r.max_heartrate then r.max_heartrate else none)
    { available := true,
      runs_with_hr := some runs_with_hr.length,
      avg_heartrate := some (pyRound (avg_hrs.sum / (avg_hrs.length : ℚ)) 0),
      highest_avg_hr := some (pyRound (qMax avg_hrs) 0),
      lowest_avg_hr := some (pyRound (qMin avg_hrs) 0),
      max_heartrate_ever := match max_hrs with | [] => none | x :: xs => some (xs.foldl max x) }

/-! ## Running PRs (`calculate_running_prs`) -/

/-- `prs["fastest_pace"]`. -/
structure PacePR where
  name : String
  date : Date
  pace : Option String
  distance_miles : ℚ
deriving DecidableEq, Repr

/-- `prs["longest_run"]`. -/
structure LongestPR where
  name : String
  date : Date
  distance_miles : ℚ
  pace : Option String
  time_minutes : ℚ
deriving DecidableEq, Repr

/-- `prs["most_elevation"]`. -/
structure ElevPR where
  name : String
  date : Date
  elevation_feet : ℚ
  distance_miles : ℚ
deriving DecidableEq, Repr

/-- `prs["hardest_effort"]`. -/
structure EffortPR where
  name : String
  date : Date
  suffer_score : Option ℤ
  distance_miles : ℚ
  pace : Option String
deriving DecidableEq, Repr

/-- Python `int(x)` (truncation toward zero). -/
def intTrunc (x : ℚ) : ℤ := if 0 ≤ x then ⌊x⌋ else -⌊-x⌋

/-- `_format_time_minutes`. -/
def formatTimeMinutes (minutes : ℚ) : String :=
  let mins : ℤ := intTrunc minutes
  let secs : ℤ := intTrunc ((minutes - (mins : ℚ)) * 60)
  toString mins ++ ":" ++ (if secs < 10 then "0" ++ toString secs else toString secs)

/-- `prs["fastest_5k_pace"]`. -/
structure FiveKPR where
  name : String
  date : Date
  pace : Option String
  actual_distance : ℚ
  estimated_5k_time : String
deriving DecidableEq, Repr

/-- The `prs` dict of `calculate_running_prs`; each key is present only when
its qualifying subset is non-empty. -/
structure RunningPRs where
  fastest_pace : Option PacePR := none
  longest_run : Option LongestPR := none
  most_elevation : Option ElevPR := none
  hardest_effort : Option EffortPR := none
  fastest_5k_pace : Option FiveKPR := none
deriving DecidableEq, Repr

/-- `calculate_running_prs`. -/
def calculate_running_prs (activities : List StravaActivity) : RunningPRs :=
  let runs := runsOf activities
  match runs with
  | [] => {}
  | _ :: _ =>
    let valid_runs := runs.filter
      (fun r => decide (0 < r.distance_miles) && qTruthy r.pace_seconds)
    let fastest := minByKeyQ (fun r => (r.pace_seconds).getD 0) valid_runs
    let longest := maxByKeyQ (fun r => r.distance_miles) runs
    let most_climb := maxByKeyQ (fun r => r.elevation_gain_feet) runs
    let runs_with_suffer := runs.filter (fun r => zTruthy r.suffer_score)
    let hardest := maxByKeyQ (fun r => ((r.suffer_score.getD 0 : ℤ) : ℚ)) runs_with_suffer
    let five_k_runs := valid_runs.filter
      (fun r => decide ((28 : ℚ)/10 ≤ r.distance_miles) && decide (r.distance_miles ≤ 4))
    let fastest_5k := minByKeyQ (fun r => (r.pace_seconds).getD 0) five_k_runs
    { fastest_pace := fastest.map fun f =>
        { name := f.name, date := f.date, pace := f.pace_per_mile,
          distance_miles := f.distance_miles },
      longest_run := longest.map fun l =>
        { name := l.name, date := l.date, distance_miles := l.distance_miles,
          pace := l.pace_per_mile, time_minutes := pyRound l.moving_time_minutes 1 },
      most_elevation := most_climb.map fun m =>
        { name := m.name, date := m.date, elevation_feet := m.elevation_gain_feet,
          distance_miles := m.distance_miles },
      hardest_effort := hardest.map fun h =>
        { name := h.name, date := h.date, suffer_score := h.suffer_score,
          distance_miles := h.distance_miles, pace := h.pace_per_mile },
      fastest_5k_pace := fastest_5k.map fun f =>
        { name := f.name, date := f.date, pace := f.pace_per_mile,
          actual_distance := f.distance_miles,
          estimated_5k_time :=
            formatTimeMinutes ((f.pace_seconds).getD 0 * (31/10) / 60) } }

/-! ## Monthly trends (`calculate_monthly_trends`) -/

/-- Per-month accumulator of `calculate_monthly_trends`. -/
structure MTAcc where
  miles : ℚ := 0
  runs : ℕ := 0
  time_mins : ℚ := 0
  elevation : ℚ := 0
  paces : List ℚ := []
deriving DecidableEq, Repr

/-- One entry of the monthly-trends report. -/
structure MonthlyTrendEntry where
  year : ℤ
  month : ℤ
  miles : ℚ
  runs : ℕ
  hours : ℚ
  elevation_feet : ℚ
  avg_pace : String
  change_pct : Option ℚ
deriving DecidableEq, Repr

/-- `calculate_monthly_trends`. -/
def calculate_monthly_trends (activities : List StravaActivity) : List MonthlyTrendEntry :=
  let runs := runsOf activities
  match runs with
  | [] => []
  | _ :: _ =>
    let m := runs.foldl
      (fun m r =>
        upsert m (r.date.year, r.date.month) (fun c =>
          let a : MTAcc := c.getD {}
          { miles := a.miles + r.distance_miles, runs := a.runs + 1,
            time_mins := a.time_mins + r.moving_time_minutes,
            elevation := a.elevation + r.elevation_gain_feet,
            paces := a.paces ++
              (if qTruthy r.pace_seconds then [(r.pace_seconds).getD 0] else []) }))
      []
    let sortedM := List.insertionSort pairKeyLe m
    (sortedM.foldl
      (fun (acc : List MonthlyTrendEntry × Option ℚ) kv =>
        let d := kv.2
        let avg_pace : ℚ := if d.paces.length = 0 then 0 else d.paces.sum / (d.paces.length : ℚ)
        let change : Option ℚ :=
          match acc.2 with
          | some prev => if 0 < prev then some (pyRound ((d.miles - prev) / prev * 100) 1) else none
          | none => none
        (acc.1 ++
          [{ year := kv.1.1, month := kv.1.2, miles := pyRound d.miles 1, runs := d.runs,
             hours := pyRound (d.time_mins / 60) 1, elevation_feet := pyRound d.elevation 0,
             avg_pace := format_pace avg_pace, change_pct := change }],
         some d.miles))
      ([], none)).1

/-! ## Composite reports -/

/-- The `calculate_advanced_lifting_stats` result mapping (its non-empty
branch). -/
structure AdvancedLiftingStats where
  key_lift_prs : List KeyLiftRecord
  rep_range_prs : List RRRecord
  strength_standards : Except Unit (List StdRecord)
  training_frequency : FrequencyStats
  volume_by_muscle : List (String × ℚ)
  volume_trend : List TrendEntry
  all_exercises : List String

/-- `calculate_advanced_lifting_stats`; `none` models the empty dict `{}`.
`now` is `datetime.now().date()` (wall clock in the source), threaded to
`calculate_key_lift_prs`. -/
def calculate_advanced_lifting_stats (now : Date) (ws : List LiftingWorkout) :
    Option AdvancedLiftingStats :=
  match ws with
  | [] => none
  | _ :: _ =>
    let lifting := filter_cardio_workouts ws
    match lifting with
    | [] => none
    | _ :: _ =>
      let bodyweights := lifting.filterMap
        (fun w => if qTruthy w.bodyweight_lbs then w.bodyweight_lbs else none)
      let latest_bw := bodyweights.getLastD 180
      some
        { key_lift_prs := calculate_key_lift_prs now lifting,
          rep_range_prs := calculate_rep_range_records lifting 8 10 true,
          strength_standards := calculate_strength_standards lifting latest_bw,
          training_frequency := calculate_training_frequency lifting,
          volume_by_muscle := calculate_volume_by_muscle_group lifting,
          volume_trend := calculate_exercise_volume_trend lifting 4,
          all_exercises := get_all_exercises lifting }

/-- The `calculate_advanced_running_stats` result mapping (its non-empty
branch). -/
structure AdvancedRunningStats where
  total_runs : ℕ
  streaks : StreakStats
  pace_zones : List PaceZoneEntry
  heart_rate_stats : HeartRateStats
  personal_records : RunningPRs
  monthly_trends : List MonthlyTrendEntry

/-- `calculate_advanced_running_stats`; `none` models the empty dict `{}`.
`today` is `datetime.now().date()` (wall clock in the source), threaded to
`calculate_running_streaks`. -/
def calculate_advanced_running_stats (today : Date) (activities : List StravaActivity) :
    Option AdvancedRunningStats :=
  match runsOf activities with
  | [] => none
  | _ :: _ =>
    some
      { total_runs := (runsOf activities).length,
        streaks := calculate_running_streaks today activities,
        pace_zones := calculate_pace_zones activities,
        heart_rate_stats := calculate_heart_rate_stats activities,
        personal_records := calculate_running_prs activities,
        monthly_trends := calculate_monthly_trends activities }

/-! ## Concrete example inputs used by witnesses and counterexamples -/

/-- A minimal run activity. -/
def exRun (d : Date) (dist : ℚ) (secs : ℤ) : StravaActivity :=
  { id := 0, name := "[7:00] park", activity_type := .run, date := d,
    distance_miles := dist, moving_time_seconds := secs }

/-- Runs on 2024-01-01/02/03 and 2024-01-10 (the streak test data). -/
def exStreakActs : List StravaActivity :=
  [exRun ⟨2024, 1, 1⟩ 1 600, exRun ⟨2024, 1, 2⟩ 1 600,
   exRun ⟨2024, 1, 3⟩ 1 600, exRun ⟨2024, 1, 10⟩ 1 600]

/-- A single-exercise bench-press workout. -/
def exBench (d : Date) (w : ℚ) (reps : ℤ) : LiftingWorkout :=
  { date := d, muscle_groups := "push",
    exercises := [{ name := "bench press", weight_lbs := w, reps := reps }] }

/-- Two bench singles: 102.24 lbs then 102.23 lbs. -/
def exRRWs : List LiftingWorkout :=
  [exBench ⟨2024, 1, 1⟩ (10224/100) 1, exBench ⟨2024, 1, 2⟩ (10223/100) 1]

/-- A one-exercise workout with volume `v`. -/
def exVolW (d : Date) (v : ℚ) : LiftingWorkout :=
  { date := d, muscle_groups := "g",
    exercises := [{ name := "a", weight_lbs := v, reps := 1 }] }

/-- Four workouts in four consecutive ISO weeks with volumes 0, 0, 0, 1. -/
def exTrendWs : List LiftingWorkout :=
  [exVolW ⟨2024, 1, 1⟩ 0, exVolW ⟨2024, 1, 8⟩ 0,
   exVolW ⟨2024, 1, 15⟩ 0, exVolW ⟨2024, 1, 22⟩ 1]

/-- Two workouts whose raw names lower-trim to the same "bench press". -/
def exC2Ws : List LiftingWorkout :=
  [{ date := ⟨2024, 1, 1⟩, muscle_groups := "push",
     exercises := [⟨"Bench Press", 100, 5, none⟩, ⟨"squat", 200, 5, none⟩] },
   { date := ⟨2024, 1, 8⟩, muscle_groups := "legs",
     exercises := [⟨"bench press ", 110, 3, none⟩] }]

/-- A single run at exactly 540 seconds per mile. -/
def exPace540 : List StravaActivity := [exRun ⟨2024, 1, 1⟩ 1 540]

/-! # Lemmas and claim theorems -/

/-! ## Rounding lemmas -/

theorem le_rhe (x : ℚ) : ⌊x⌋ ≤ rhe x := by
  unfold rhe; split_ifs <;> omega

theorem rhe_le_floor_add_one (x : ℚ) : rhe x ≤ ⌊x⌋ + 1 := by
  unfold rhe; split_ifs <;> omega

theorem rhe_intCast (n : ℤ) : rhe (n : ℚ) = n := by
  unfold rhe
  rw [Int.floor_intCast]
  norm_num

theorem rhe_le_of_le {x : ℚ} {n : ℤ} (h : x ≤ (n : ℚ)) : rhe x ≤ n := by
  have hf : ⌊x⌋ ≤ n := by
    have := Int.floor_le_floor h
    simpa using this
  rcases lt_or_eq_of_le hf with hlt | heq
  · exact le_trans (rhe_le_floor_add_one x) (by omega)
  · have hx : x = (n : ℚ) := by
      have h1 : (n : ℚ) ≤ x := by
        calc (n : ℚ) = (⌊x⌋ : ℚ) := by exact_mod_cast heq.symm
        _ ≤ x := Int.floor_le x
      exact le_antisymm h h1
    rw [hx, rhe_intCast]

theorem le_rhe_of_le {x : ℚ} {n : ℤ} (h : (n : ℚ) ≤ x) : n ≤ rhe x :=
  le_trans (Int.le_floor.mpr h) (le_rhe x)

theorem pyRound_le_of_le {x : ℚ} {k : ℤ} (n : ℕ) (h : x ≤ (k : ℚ) / 10 ^ n) :
    pyRound x n ≤ (k : ℚ) / 10 ^ n := by
  unfold pyRound
  have hp : (0 : ℚ) < 10 ^ n := by positivity
  have hx : x * 10 ^ n ≤ (k : ℚ) := (le_div_iff hp).mp h
  have hr := rhe_le_of_le hx
  have hr' : ((rhe (x * 10 ^ n) : ℤ) : ℚ) ≤ (k : ℚ) := by exact_mod_cast hr
  gcongr

theorem le_pyRound_of_le {x : ℚ} {k : ℤ} (n : ℕ) (h : (k : ℚ) / 10 ^ n ≤ x) :
    (k : ℚ) / 10 ^ n ≤ pyRound x n := by
  unfold pyRound
  have hp : (0 : ℚ) < 10 ^ n := by positivity
  have hx : (k : ℚ) ≤ x * 10 ^ n := (div_le_iff hp).mp h
  have hr := le_rhe_of_le hx
  have hr' : (k : ℚ) ≤ ((rhe (x * 10 ^ n) : ℤ) : ℚ) := by exact_mod_cast hr
  gcongr

/-! ## Dictionary lemmas -/

theorem alookup_upsert {κ β : Type} [DecidableEq κ] (m : List (κ × β)) (k k' : κ)
    (f : Option β → β) :
    alookup k' (upsert m k f) =
      if k = k' then some (f (alookup k m)) else alookup k' m := by
  induction m with
  | nil =>
    by_cases h : k = k' <;> simp [upsert, alookup, h]
  | cons hd tl ih =>
    rcases hd with ⟨k₀, v⟩
    by_cases h₀ : k₀ = k
    · subst h₀
      by_cases h' : k₀ = k'
      · subst h'
        simp [upsert, alookup]
      · simp [upsert, alookup, h']
    · by_cases h' : k₀ = k'
      · subst h'
        have hk : ¬ k = k₀ := fun h => h₀ h.symm
        simp [upsert, alookup, h₀, hk]
      · simp [upsert, alookup, h₀, h', ih]

theorem akeys_upsert {κ β : Type} [DecidableEq κ] (m : List (κ × β)) (k : κ)
    (f : Option β → β) :
    akeys (upsert m k f) = if k ∈ akeys m then akeys m else akeys m ++ [k] := by
  induction m with
  | nil => simp [upsert, akeys]
  | cons hd tl ih =>
    rcases hd with ⟨k₀, v⟩
    by_cases h₀ : k₀ = k
    · subst h₀
      simp [upsert, akeys]
    · have hne : ¬ k = k₀ := fun h => h₀ h.symm
      simp only [akeys, List.map_cons] at ih ⊢
      simp only [upsert, if_neg h₀, List.map_cons]
      rw [ih]
      by_cases hm : k ∈ List.map Prod.fst tl
      · simp [hm, hne]
      · simp [hm, hne]

theorem mem_akeys_upsert {κ β : Type} [DecidableEq κ] (m : List (κ × β)) (k k' : κ)
    (f : Option β → β) :
    k' ∈ akeys (upsert m k f) ↔ k' ∈ akeys m ∨ k' = k := by
  rw [akeys_upsert]
  split_ifs with hm
  · constructor
    · exact fun h => Or.inl h
    · rintro (h | h)
      · exact h
      · exact h ▸ hm
  · simp

theorem nodup_akeys_upsert {κ β : Type} [DecidableEq κ] (m : List (κ × β)) (k : κ)
    (f : Option β → β) (h : (akeys m).Nodup) : (akeys (upsert m k f)).Nodup := by
  rw [akeys_upsert]
  split_ifs with hm
  · exact h
  · simp [List.nodup_append, h, hm]

theorem afold_cons {α κ β : Type} [DecidableEq κ] (key : α → κ) (comb : Option β → α → β)
    (o : α) (l : List α) (m : List (κ × β)) :
    afold key comb (o :: l) m = afold key comb l (upsert m (key o) (fun c => comb c o)) := rfl

theorem alookup_afold {α κ β : Type} [DecidableEq κ] (key : α → κ) (comb : Option β → α → β)
    (l : List α) (m : List (κ × β)) (k : κ) :
    alookup k (afold key comb l m) =
      (l.filter (fun o => decide (key o = k))).foldl (fun c o => some (comb c o))
        (alookup k m) := by
  induction l generalizing m with
  | nil => rfl
  | cons o l ih =>
    rw [afold_cons, ih]
    by_cases h : key o = k
    · simp [List.filter_cons, h, alookup_upsert]
    · simp [List.filter_cons, h, alookup_upsert]

theorem mem_akeys_afold {α κ β : Type} [DecidableEq κ] (key : α → κ)
    (comb : Option β → α → β) (l : List α) (m : List (κ × β)) (k : κ) :
    k ∈ akeys (afold key comb l m) ↔ k ∈ akeys m ∨ k ∈ l.map key := by
  induction l generalizing m with
  | nil => simp [afold]
  | cons o l ih =>
    rw [afold_cons, ih]
    rw [mem_akeys_upsert]
    constructor
    · rintro ((h | h) | h)
      · exact Or.inl h
      · exact Or.inr (by simp [h])
      · exact Or.inr (by simp [h])
    · rintro (h | h)
      · exact Or.inl (Or.inl h)
      · rcases List.mem_map.mp h with ⟨o', ho', rfl⟩
        rcases List.mem_cons.mp ho' with rfl | ho''
        · exact Or.inl (Or.inr rfl)
        · exact Or.inr (List.mem_map_of_mem _ ho'')

theorem nodup_akeys_afold {α κ β : Type} [DecidableEq κ] (key : α → κ)
    (comb : Option β → α → β) (l : List α) (m : List (κ × β))
    (h : (akeys m).Nodup) : (akeys (afold key comb l m)).Nodup := by
  induction l generalizing m with
  | nil => exact h
  | cons o l ih =>
    rw [afold_cons]
    exact ih _ (nodup_akeys_upsert _ _ _ h)

theorem alookup_of_mem_nodup {κ β : Type} [DecidableEq κ] (m : List (κ × β))
    (kv : κ × β) (hn : (akeys m).Nodup) (hm : kv ∈ m) : alookup kv.1 m = some kv.2 := by
  rcases kv with ⟨k, v⟩
  induction m with
  | nil => cases hm
  | cons hd tl ih =>
    rcases List.mem_cons.mp hm with rfl | hm'
    · simp [alookup]
    · rcases hd with ⟨k₀, v₀⟩
      have hn2 : (k₀ :: akeys tl).Nodup := by simpa [akeys] using hn
      have hfst : (k, v).1 ∈ akeys tl := List.mem_map_of_mem Prod.fst hm'
      have hk : ¬ k₀ = (k, v).1 := by
        intro h
        exact (List.nodup_cons.mp hn2).1 (h ▸ hfst)
      simp only [alookup, if_neg hk]
      exact ih (by simpa [akeys] using (List.nodup_cons.mp hn2).2) hm'

/-! ## C1: the estimated-1RM contract -/

/-- C1: for every weight `w` and rep count `r`, `calculate_estimated_1rm`
returns `w * 36 / (37 - r)` when `1 ≤ r ≤ 36` and returns `w` unmodified when
`r ≤ 0` or `r ≥ 37`; for fixed `r ∈ [1, 36]` the result is monotonically
(indeed strictly) increasing in `w`. -/
theorem C1_estimated_1rm_contract (w w1 w2 : ℚ) (r : ℤ) :
    ((r ≤ 0 ∨ 37 ≤ r) → calculate_estimated_1rm w r = w) ∧
    (1 ≤ r → r ≤ 36 →
      calculate_estimated_1rm w r = w * (36 / ((37 : ℚ) - (r : ℚ)))) ∧
    (1 ≤ r → r ≤ 36 → w1 ≤ w2 →
      calculate_estimated_1rm w1 r ≤ calculate_estimated_1rm w2 r) ∧
    (1 ≤ r → r ≤ 36 → w1 < w2 →
      calculate_estimated_1rm w1 r < calculate_estimated_1rm w2 r) := by
  have hpos : 1 ≤ r → r ≤ 36 → (0 : ℚ) < 36 / ((37 : ℚ) - (r : ℚ)) := by
    intro h1 h2
    apply div_pos (by norm_num)
    have : (r : ℚ) ≤ 36 := by exact_mod_cast h2
    linarith
  have hcond : 1 ≤ r → r ≤ 36 → ¬(r ≤ 0 ∨ 37 ≤ r) := by omega
  refine ⟨?_, ?_, ?_, ?_⟩
  · intro h
    simp [calculate_estimated_1rm, h]
  · intro h1 h2
    simp [calculate_estimated_1rm, hcond h1 h2]
  · intro h1 h2 hw
    simp only [calculate_estimated_1rm, if_neg (hcond h1 h2)]
    exact mul_le_mul_of_nonneg_right hw (hpos h1 h2).le
  · intro h1 h2 hw
    simp only [calculate_estimated_1rm, if_neg (hcond h1 h2)]
    exact mul_lt_mul_of_pos_right hw (hpos h1 h2)

/-- Witness for C1 at concrete inputs. -/
theorem C1_estimated_1rm_contract_witness :
    calculate_estimated_1rm 100 0 = 100 ∧
    calculate_estimated_1rm 100 5 = 100 * (36 / ((37 : ℚ) - (5 : ℚ))) ∧
    calculate_estimated_1rm 100 5 ≤ calculate_estimated_1rm 110 5 ∧
    calculate_estimated_1rm 100 5 < calculate_estimated_1rm 110 5 :=
  ⟨(C1_estimated_1rm_contract 100 100 110 0).1 (Or.inl (by norm_num)),
   (C1_estimated_1rm_contract 100 100 110 5).2.1 (by norm_num) (by norm_num),
   (C1_estimated_1rm_contract 100 100 110 5).2.2.1 (by norm_num) (by norm_num) (by norm_num),
   (C1_estimated_1rm_contract 100 100 110 5).2.2.2 (by norm_num) (by norm_num) (by norm_num)⟩

/-! ## C3: running streaks -/

theorem streakStep_date (acc : ℕ × ℕ × Date) (r : StravaActivity) :
    (streakStep acc r).2.2 = r.date := by
  unfold streakStep
  split_ifs <;> rfl

theorem streak_fold_pos (l : List StravaActivity) (acc : ℕ × ℕ × Date)
    (h : 1 ≤ acc.1) : 1 ≤ (l.foldl streakStep acc).1 := by
  induction l generalizing acc with
  | nil => exact h
  | cons o l ih =>
    apply ih
    unfold streakStep
    split_ifs <;> simp <;> omega

theorem streak_fold_last (l : List StravaActivity) (acc : ℕ × ℕ × Date) :
    (l.foldl streakStep acc).2.2 = (l.map (fun r => r.date)).getLastD acc.2.2 := by
  induction l generalizing acc with
  | nil => rfl
  | cons o l ih =>
    rw [List.foldl_cons, ih, List.map_cons, List.getLastD_cons, streakStep_date]

theorem sorted_date_le_getLast (l : List StravaActivity)
    (hs : List.Sorted activityDateLe l) (hne : l ≠ []) :
    ∀ x ∈ l, x.date.ord ≤ (l.getLast hne).date.ord := by
  induction l with
  | nil => cases hne rfl
  | cons a t ih =>
    intro x hx
    rcases List.mem_cons.mp hx with rfl | hx'
    · match t, hs with
      | [], _ => simp [List.getLast]
      | b :: t', hs =>
        have h1 := (List.sorted_cons.mp hs).1
        have hne' : b :: t' ≠ [] := by simp
        rw [List.getLast_cons hne']
        exact h1 _ (List.getLast_mem hne')
    · match t, hx' with
      | b :: t', hx' =>
        have hne' : b :: t' ≠ [] := by simp
        rw [List.getLast_cons hne']
        exact ih (List.sorted_cons.mp hs).2 hne' x hx'

theorem getLast_map_date (l : List StravaActivity) (hne : l ≠ []) (d : Date) :
    (l.map (fun r => r.date)).getLastD d = (l.getLast hne).date := by
  induction l with
  | nil => cases hne rfl
  | cons a t ih =>
    match t with
    | [] => rfl
    | b :: t' =>
      rw [List.map_cons, List.getLastD_cons, List.getLast_cons (by simp)]
      exact ih (by simp)

/-- C3 counterexample: for runs on 2024-01-01/02/03/10 and "today" =
2024-01-11, the code reports `current_streak = 1`, not the claimed 0 (the
distance from the last run to today is exactly 1 day, which is not `> 1`). -/
theorem C3_streaks_counterexample :
    (calculate_running_streaks ⟨2024, 1, 11⟩ exStreakActs).current_streak = 1 ∧
    (calculate_running_streaks ⟨2024, 1, 11⟩ exStreakActs).current_streak ≠ 0 := by
  constructor
  · rfl
  · decide

/-- C3 (amended): for the streak test data, `longest_streak = 3`; with
"today" = 2024-01-11 the current streak is 1 (still active), and with
"today" = 2024-01-12 it is 0.  In general, for a non-empty run list the
reported current streak is zero exactly when the number of days from the most
recent run to today is strictly greater than 1. -/
theorem C3_streaks_amended :
    (calculate_running_streaks ⟨2024, 1, 11⟩ exStreakActs).longest_streak = 3 ∧
    (calculate_running_streaks ⟨2024, 1, 11⟩ exStreakActs).current_streak = 1 ∧
    (calculate_running_streaks ⟨2024, 1, 12⟩ exStreakActs).current_streak = 0 ∧
    (∀ (today : Date) (acts : List StravaActivity), runsOf acts ≠ [] →
      ∃ last : Date,
        (calculate_running_streaks today acts).last_run_date = some last ∧
        (∃ r ∈ runsOf acts, r.date = last) ∧
        (∀ r ∈ runsOf acts, r.date.ord ≤ last.ord) ∧
        ((calculate_running_streaks today acts).current_streak = 0 ↔
          1 < today.ord - last.ord)) := by
  refine ⟨rfl, rfl, rfl, ?_⟩
  intro today acts hne
  unfold calculate_running_streaks
  have hperm := List.perm_insertionSort activityDateLe (runsOf acts)
  have hsorted := List.sorted_insertionSort activityDateLe (runsOf acts)
  set sl := List.insertionSort activityDateLe (runsOf acts) with hsl
  have hslne : sl ≠ [] := fun h => hne ((h ▸ hperm).symm.eq_nil)
  obtain ⟨r0, rest, hm⟩ := List.exists_cons_of_ne_nil hslne
  rw [hm]
  simp only
  have hlast : (rest.foldl streakStep (1, 1, r0.date)).2.2 =
      ((r0 :: rest).getLast (by simp)).date := by
    rw [streak_fold_last, ← getLast_map_date (r0 :: rest) (by simp) r0.date,
      List.map_cons, List.getLastD_cons]
  refine ⟨(rest.foldl streakStep (1, 1, r0.date)).2.2, rfl, ?_, ?_, ?_⟩
  · rw [hlast]
    refine ⟨(r0 :: rest).getLast (by simp), ?_, rfl⟩
    have hmem : (r0 :: rest).getLast (by simp) ∈ sl := by
      rw [hm]; exact List.getLast_mem _
    exact hperm.mem_iff.mp hmem
  · intro r hr
    rw [hlast]
    have hrs : r ∈ sl := hperm.mem_iff.mpr hr
    have := sorted_date_le_getLast sl (hsl ▸ hsorted) hslne r hrs
    calc r.date.ord ≤ (sl.getLast hslne).date.ord := this
    _ = ((r0 :: rest).getLast (by simp)).date.ord := by
        rw [List.getLast_congr hslne (by simp) hm]
  · have hpos : 1 ≤ (rest.foldl streakStep (1, 1, r0.date)).1 :=
      streak_fold_pos rest (1, 1, r0.date) (by norm_num)
    by_cases hgt : 1 < today.ord - (rest.foldl streakStep (1, 1, r0.date)).2.2.ord
    · simp [hgt]
    · simp only [if_neg hgt]
      constructor
      · intro h0; omega
      · intro h; exact absurd h hgt

/-- Witness for the amended C3 at a concrete input. -/
theorem C3_streaks_amended_witness :
    ∃ last : Date,
      (calculate_running_streaks ⟨2024, 1, 12⟩ exStreakActs).last_run_date = some last ∧
      (∃ r ∈ runsOf exStreakActs, r.date = last) ∧
      (∀ r ∈ runsOf exStreakActs, r.date.ord ≤ last.ord) ∧
      ((calculate_running_streaks ⟨2024, 1, 12⟩ exStreakActs).current_streak = 0 ↔
        1 < (⟨2024, 1, 12⟩ : Date).ord - last.ord) :=
  (C3_streaks_amended.2.2.2) ⟨2024, 1, 12⟩ exStreakActs (by decide)

/-! ## C4 and C5: pace zones -/

theorem zoneOf_pos_isSome (p : ℚ) (hp : 0 < p) : ∃ zn, zoneOf p = some zn := by
  unfold zoneOf
  split_ifs with h1 h2 h3 h4 h5
  · exact ⟨_, rfl⟩
  · exact ⟨_, rfl⟩
  · exact ⟨_, rfl⟩
  · exact ⟨_, rfl⟩
  · exact ⟨_, rfl⟩
  · exfalso
    have h360 : 360 ≤ p := by
      by_contra hc
      push_neg at hc
      exact h5 ⟨hp.le, hc⟩
    have h420 : 420 ≤ p := by
      by_contra hc
      push_neg at hc
      exact h4 ⟨h360, hc⟩
    have h480 : 480 ≤ p := by
      by_contra hc
      push_neg at hc
      exact h3 ⟨h420, hc⟩
    have h540 : 540 ≤ p := by
      by_contra hc
      push_neg at hc
      exact h2 ⟨h480, hc⟩
    exact h1 h540

theorem zone_fold_count (runs : List StravaActivity) (z : ZoneTotals)
    (h : ∀ r ∈ runs, ∃ p, r.pace_seconds = some p ∧ 0 < p) :
    (runs.foldl zoneStep z).easy.count + (runs.foldl zoneStep z).steady.count +
      (runs.foldl zoneStep z).tempo.count + (runs.foldl zoneStep z).threshold.count +
      (runs.foldl zoneStep z).speed.count =
    z.easy.count + z.steady.count + z.tempo.count + z.threshold.count +
      z.speed.count + runs.length := by
  induction runs generalizing z with
  | nil => simp
  | cons r l ih =>
    obtain ⟨p, hp, hpos⟩ := h r (List.mem_cons_self r l)
    have hl : ∀ x ∈ l, ∃ p, x.pace_seconds = some p ∧ 0 < p :=
      fun x hx => h x (List.mem_cons_of_mem r hx)
    rw [List.foldl_cons, ih _ hl]
    obtain ⟨zn, hzn⟩ := zoneOf_pos_isSome p hpos
    have hstep : zoneStep z r = z.add zn r.distance_miles := by
      simp [zoneStep, hp, hzn]
    rw [hstep]
    cases zn <;> simp [ZoneTotals.add, List.length_cons] <;> omega

/-- C4: pace-zone assignment is total and exclusive — every run with a valid
(positive) pace is assigned exactly one zone, and the five zone counts sum to
the number of valid-pace runs. -/
theorem C4_pace_zones_total (acts : List StravaActivity)
    (h : ∀ r ∈ paceZoneRuns acts, ∃ p, r.pace_seconds = some p ∧ 0 < p) :
    (∀ r ∈ paceZoneRuns acts, ∃ p, r.pace_seconds = some p ∧
      (∃! zn, zoneOf p = some zn)) ∧
    ((calculate_pace_zones acts).map (fun e => e.count)).sum =
      (paceZoneRuns acts).length := by
  constructor
  · intro r hr
    obtain ⟨p, hp, hpos⟩ := h r hr
    obtain ⟨zn, hzn⟩ := zoneOf_pos_isSome p hpos
    refine ⟨p, hp, zn, hzn, ?_⟩
    intro y hy
    rw [hzn] at hy
    exact (Option.some_injective _ hy).symm
  · have hsum := zone_fold_count (paceZoneRuns acts) {} h
    simp only [calculate_pace_zones, zoneTotalsOf, List.map_cons, List.map_nil,
      List.sum_cons, List.sum_nil]
    simp at hsum
    omega

/-- Witness for C4 on a one-run input. -/
theorem C4_pace_zones_total_witness :
    ((calculate_pace_zones exPace540).map (fun e => e.count)).sum =
      (paceZoneRuns exPace540).length := by
  refine (C4_pace_zones_total exPace540 ?_).2
  intro r hr
  have : r = exRun ⟨2024, 1, 1⟩ 1 540 :=
    (by simpa [paceZoneRuns, exPace540] using hr :
      r = exRun ⟨2024, 1, 1⟩ 1 540 ∧ _ ∧ _).1
  subst this
  exact ⟨540, by norm_num [StravaActivity.pace_seconds, exRun], by norm_num⟩

/-- C5 counterexample: a run at exactly 540 s/mile is counted in the easy
zone (count 1), not the steady zone (count 0), contradicting the claim. -/
theorem C5_zone540_counterexample :
    ((calculate_pace_zones exPace540).map (fun e => (e.zone, e.count))) =
      [("easy", 1), ("steady", 0), ("tempo", 0), ("threshold", 0), ("speed", 0)] ∧
    zoneOf 540 ≠ some ZoneName.steady := by
  exact ⟨by with_unfolding_all decide, by decide⟩

/-- C5 (amended): under first-match evaluation in the listed order, a pace of
exactly 540 falls in the easy zone, whose test is `540 ≤ pace`; the steady
zone receives exactly the paces in `[480, 540)`. -/
theorem C5_zone540_amended (p : ℚ) :
    zoneOf 540 = some ZoneName.easy ∧
    (540 ≤ p → zoneOf p = some ZoneName.easy) ∧
    (480 ≤ p → p < 540 → zoneOf p = some ZoneName.steady) ∧
    ((calculate_pace_zones exPace540).map (fun e => (e.zone, e.count))) =
      [("easy", 1), ("steady", 0), ("tempo", 0), ("threshold", 0), ("speed", 0)] := by
  refine ⟨by decide, ?_, ?_, by with_unfolding_all decide⟩
  · intro hge
    simp [zoneOf, hge]
  · intro h1 h2
    have hne : ¬ (540 : ℚ) ≤ p := by linarith
    simp [zoneOf, hne, h1, h2]

/-- Witness for the amended C5 at concrete paces. -/
theorem C5_zone540_amended_witness :
    zoneOf 600 = some ZoneName.easy ∧ zoneOf 500 = some ZoneName.steady :=
  ⟨(C5_zone540_amended 600).2.1 (by norm_num),
   (C5_zone540_amended 500).2.2.1 (by norm_num) (by norm_num)⟩

/-! ## C9: wall-clock dependence -/

/-- C9 evidence: `calculate_running_streaks` reads the wall clock
(`datetime.now()`), so the same activity list yields different results when
the call happens on 2024-01-10 versus 2024-01-12 — the output is not a
function of the inputs alone, contradicting the claim that "now" is an
injectable parameter and runs at different times agree. -/
theorem C9_wall_clock_dependence :
    (calculate_running_streaks ⟨2024, 1, 10⟩ [exRun ⟨2024, 1, 10⟩ 1 600]).current_streak = 1 ∧
    (calculate_running_streaks ⟨2024, 1, 12⟩ [exRun ⟨2024, 1, 10⟩ 1 600]).current_streak = 0 ∧
    calculate_running_streaks ⟨2024, 1, 10⟩ [exRun ⟨2024, 1, 10⟩ 1 600] ≠
      calculate_running_streaks ⟨2024, 1, 12⟩ [exRun ⟨2024, 1, 10⟩ 1 600] :=
  ⟨rfl, rfl, by decide⟩

/-! ## C8: empty inputs -/

/-- C8: both composite reports return the empty mapping on empty input, and
every individual calculator returns its defined zero/empty-valued result
(the Lean model is total, so no exception is possible). -/
theorem C8_empty_inputs (today now : Date) (bw : ℚ) (w : ℕ) (name : String)
    (min_reps max_reps : ℤ) (key_lifts_only : Bool) :
    calculate_advanced_running_stats today [] = none ∧
    calculate_advanced_lifting_stats now [] = none ∧
    calculate_running_stats now [] =
      { total_runs := 0, total_miles := 0, total_time_hours := 0,
        total_elevation_feet := 0, avg_distance := 0, avg_pace := "N/A",
        fastest_pace := "N/A", longest_run_miles := 0, runs_this_month := 0,
        miles_this_month := 0 } ∧
    calculate_lifting_stats now [] =
      { total_workouts := 0, total_volume_lbs := 0, workout_distribution := [],
        date_range_start := now, date_range_end := now } ∧
    calculate_personal_records [] = [] ∧
    calculate_weekly_mileage [] = [] ∧
    calculate_monthly_mileage [] = [] ∧
    extract_locations [] = [] ∧
    calculate_weekly_volume [] = [] ∧
    calculate_rep_range_records [] min_reps max_reps key_lifts_only = [] ∧
    calculate_key_lift_prs now [] = [] ∧
    calculate_exercise_progression [] name = [] ∧
    calculate_volume_by_muscle_group [] = [] ∧
    calculate_training_frequency [] =
      { avg_days_between := 0, workouts_per_week := 0 } ∧
    calculate_strength_standards [] bw = .ok [] ∧
    calculate_accessory_prs [] = [] ∧
    calculate_exercise_volume_trend [] w = [] ∧
    get_all_exercises [] = [] ∧
    calculate_running_streaks today [] =
      { current_streak := 0, longest_streak := 0 } ∧
    ((calculate_pace_zones []).map (fun e => (e.count, e.miles, e.percentage))) =
      [(0, 0, 0), (0, 0, 0), (0, 0, 0), (0, 0, 0), (0, 0, 0)] ∧
    calculate_heart_rate_stats [] = { available := false } ∧
    calculate_running_prs [] = {} ∧
    calculate_monthly_trends [] = [] := by
  refine ⟨rfl, rfl, rfl, rfl, rfl, rfl, rfl, rfl, rfl, rfl, rfl, rfl, rfl, rfl,
    rfl, rfl, ?_, rfl, rfl, ?_, rfl, rfl, rfl⟩
  · simp only [calculate_exercise_volume_trend]
    split <;> rfl
  · with_unfolding_all rfl

/-! ## C10: strength standards and the unguarded bodyweight division -/

theorem mem_upsert_values {κ β : Type} [DecidableEq κ] (m : List (κ × β)) (k : κ)
    (f : Option β → β) (P : β → Prop)
    (hm : ∀ kv ∈ m, P kv.2) (hf : ∀ c, P (f c)) : ∀ kv ∈ upsert m k f, P kv.2 := by
  induction m with
  | nil =>
    intro kv hkv
    have hkv' := List.mem_singleton.mp hkv
    subst hkv'
    exact hf none
  | cons hd tl ih =>
    rcases hd with ⟨k₀, v⟩
    intro kv hkv
    by_cases h₀ : k₀ = k
    · rw [upsert, if_pos h₀] at hkv
      rcases List.mem_cons.mp hkv with rfl | h'
      · exact hf (some v)
      · exact hm kv (List.mem_cons_of_mem _ h')
    · rw [upsert, if_neg h₀] at hkv
      rcases List.mem_cons.mp hkv with rfl | h'
      · exact hm _ (List.mem_cons_self _ _)
      · exact ih (fun kv' hkv' => hm kv' (List.mem_cons_of_mem _ hkv')) kv h'

theorem stdFold_error (occs : List Occ)
    (h : ∃ o ∈ occs, (categorize_big3 (lowTrim o.name)).isSome) :
    occs.foldlM (stdStep 0) ([] : List (String × StdRecord)) = .error () := by
  induction occs with
  | nil =>
    obtain ⟨o, ho, _⟩ := h
    cases ho
  | cons o l ih =>
    obtain ⟨o', ho', hcat⟩ := h
    rw [List.foldlM_cons]
    cases hc : categorize_big3 (lowTrim o.name) with
    | none =>
      have hstep : stdStep 0 [] o = .ok [] := by simp [stdStep, hc]
      rw [hstep]
      show l.foldlM (stdStep 0) [] = .error ()
      rcases List.mem_cons.mp ho' with rfl | h'
      · rw [hc] at hcat
        cases hcat
      · exact ih ⟨o', h', hcat⟩
    | some cat =>
      have hstep : stdStep 0 [] o = .error () := by
        simp [stdStep, hc, alookup, pyDivE]
      rw [hstep]
      rfl

theorem stdFold_ok (bw : ℚ) (hbw : bw ≠ 0) (occs : List Occ)
    (m : List (String × StdRecord))
    (hm : ∀ kv ∈ m,
      kv.2.bw_ratio = pyRound (calculate_estimated_1rm kv.2.weight kv.2.reps / bw) 2) :
    ∃ m', occs.foldlM (stdStep bw) m = .ok m' ∧
      ∀ kv ∈ m',
        kv.2.bw_ratio = pyRound (calculate_estimated_1rm kv.2.weight kv.2.reps / bw) 2 := by
  induction occs generalizing m with
  | nil => exact ⟨m, rfl, hm⟩
  | cons o l ih =>
    rw [List.foldlM_cons]
    cases hc : categorize_big3 (lowTrim o.name) with
    | none =>
      have hstep : stdStep bw m o = .ok m := by simp [stdStep, hc]
      rw [hstep]
      exact ih m hm
    | some cat =>
      by_cases hrep : (match alookup cat m with
        | none => true
        | some cur => decide (cur.estimated_1rm < calculate_estimated_1rm o.weight_lbs o.reps)) = true
      · have hstep : stdStep bw m o = .ok (upsert m cat (fun _ =>
          { lift := cat, exercise := o.name, weight := o.weight_lbs, reps := o.reps,
            estimated_1rm := pyRound (calculate_estimated_1rm o.weight_lbs o.reps) 1,
            bw_ratio := pyRound (calculate_estimated_1rm o.weight_lbs o.reps / bw) 2,
            date := o.date })) := by
          simp only [stdStep, hc, pyDivE, if_neg hbw]
          rw [if_pos]
          rcases hl : alookup cat m with _ | cur
          · rfl
          · rw [hl] at hrep
            simpa using hrep
        rw [hstep]
        exact ih _ (mem_upsert_values m cat _
          (fun v => v.bw_ratio = pyRound (calculate_estimated_1rm v.weight v.reps / bw) 2)
          hm (fun _ => rfl))
      · have hstep : stdStep bw m o = .ok m := by
          simp only [stdStep, hc]
          rw [if_neg]
          rcases hl : alookup cat m with _ | cur
          · rw [hl] at hrep
            simp at hrep
          · rw [hl] at hrep
            simpa using hrep
        rw [hstep]
        exact ih m hm

/-- C10: `calculate_strength_standards` divides by the supplied bodyweight
with no guard.  For every workout list containing a big-three-matching
exercise, bodyweight 0 raises `ZeroDivisionError` (modelled as `.error ()`),
while for every nonzero bodyweight the call succeeds and every record's
`bw_ratio` equals `round(estimated_1rm / bodyweight, 2)` computed from the
record's own weight and reps. -/
theorem C10_strength_standards (ws : List LiftingWorkout)
    (h : ∃ o ∈ occList ws, (categorize_big3 (lowTrim o.name)).isSome) :
    calculate_strength_standards ws 0 = .error () ∧
    ∀ bw : ℚ, bw ≠ 0 → ∃ recs, calculate_strength_standards ws bw = .ok recs ∧
      ∀ r ∈ recs, r.bw_ratio = pyRound (calculate_estimated_1rm r.weight r.reps / bw) 2 := by
  constructor
  · unfold calculate_strength_standards
    rw [stdFold_error (occList ws) h]
  · intro bw hbw
    obtain ⟨m', hok, hP⟩ := stdFold_ok bw hbw (occList ws) [] (by intro kv hkv; cases hkv)
    unfold calculate_strength_standards
    rw [hok]
    refine ⟨_, rfl, ?_⟩
    intro r hr
    have hmem : r ∈ m'.map Prod.snd := (List.perm_insertionSort stdDesc _).mem_iff.mp hr
    obtain ⟨kv, hkv, rfl⟩ := List.mem_map.mp hmem
    exact hP kv hkv

/-- Witness for C10: the two-bench-press example errors at bodyweight 0 and
succeeds at bodyweight 180. -/
theorem C10_strength_standards_witness :
    calculate_strength_standards exRRWs 0 = .error () ∧
    ∃ recs, calculate_strength_standards exRRWs 180 = .ok recs ∧
      ∀ r ∈ recs, r.bw_ratio = pyRound (calculate_estimated_1rm r.weight r.reps / 180) 2 :=
  ⟨(C10_strength_standards exRRWs (by decide)).1,
   (C10_strength_standards exRRWs (by decide)).2 180 (by norm_num)⟩

/-! ## C2: personal records -/

theorem prFold_spec (occs : List Occ) (hne : occs ≠ []) :
    ∃ pre o post, occs = pre ++ o :: post ∧
      occs.foldl (fun c oc => some (prCombine c oc)) none =
        some ⟨o.weight_lbs, o.reps, o.date⟩ ∧
      (∀ o' ∈ pre, o'.weight_lbs < o.weight_lbs) ∧
      (∀ o' ∈ occs, o'.weight_lbs ≤ o.weight_lbs) := by
  induction occs using List.reverseRecOn with
  | nil => cases hne rfl
  | append_singleton l o ih =>
    rcases hl : l with _ | ⟨a, l'⟩
    · refine ⟨[], o, [], by simp, ?_, by simp, ?_⟩
      · simp [prCombine]
      · intro o' ho'
        rcases List.mem_singleton.mp ho' with rfl
        exact le_refl _
    · rw [← hl]
      have hlne : l ≠ [] := by rw [hl]; simp
      obtain ⟨pre, ob, post, heq, hfold, hpre, hall⟩ := ih hlne
      rw [List.foldl_concat, hfold]
      by_cases hw : ob.weight_lbs < o.weight_lbs
      · refine ⟨l, o, [], by simp, ?_, ?_, ?_⟩
        · simp [prCombine, hw]
        · intro o' ho'
          exact lt_of_le_of_lt (hall o' ho') hw
        · intro o' ho'
          rcases List.mem_append.mp ho' with h | h
          · exact le_of_lt (lt_of_le_of_lt (hall o' h) hw)
          · rcases List.mem_singleton.mp h with rfl
            exact le_refl _
      · refine ⟨pre, ob, post ++ [o], by rw [heq]; simp, ?_, hpre, ?_⟩
        · simp [prCombine, hw]
        · intro o' ho'
          rcases List.mem_append.mp ho' with h | h
          · exact hall o' h
          · rcases List.mem_singleton.mp h with rfl
            exact le_of_not_lt hw

/-- C2: `calculate_personal_records` returns exactly one record per distinct
lower-trimmed exercise name; each record's `max_weight` is the true maximum
weight over that name's occurrences, its reps and date come from the
first-seen occurrence attaining that maximum (every earlier occurrence of the
name is strictly lighter), and the list is sorted descending by `max_weight`
with length equal to the number of distinct names. -/
theorem C2_personal_records (ws : List LiftingWorkout) :
    (calculate_personal_records ws).length = ((occList ws).map occKeyRaw).dedup.length ∧
    ((calculate_personal_records ws).map (fun r => r.exercise)).Nodup ∧
    (∀ n, n ∈ (calculate_personal_records ws).map (fun r => r.exercise) ↔
      n ∈ (occList ws).map occKeyRaw) ∧
    (∀ r ∈ calculate_personal_records ws,
      (∀ o ∈ (occList ws).filter (fun o => decide (occKeyRaw o = r.exercise)),
        o.weight_lbs ≤ r.max_weight) ∧
      (∃ pre o post,
        (occList ws).filter (fun o => decide (occKeyRaw o = r.exercise)) =
          pre ++ o :: post ∧
        r.max_weight = o.weight_lbs ∧ r.reps = o.reps ∧ r.date = o.date ∧
        ∀ o' ∈ pre, o'.weight_lbs < o.weight_lbs)) ∧
    List.Sorted prDesc (calculate_personal_records ws) := by
  have hkeysnodup : (akeys (afold occKeyRaw prCombine (occList ws) [])).Nodup :=
    nodup_akeys_afold _ _ _ _ (by simp [akeys])
  have hperm : (calculate_personal_records ws).Perm <|
      (afold occKeyRaw prCombine (occList ws) []).map
        (fun kv => { exercise := kv.1, max_weight := kv.2.weight, reps := kv.2.reps,
                     date := kv.2.date }) :=
    List.perm_insertionSort prDesc _
  have hnames : ((afold occKeyRaw prCombine (occList ws) []).map
      (fun kv => ({ exercise := kv.1, max_weight := kv.2.weight, reps := kv.2.reps,
                    date := kv.2.date } : PRRecord))).map (fun r => r.exercise) =
      akeys (afold occKeyRaw prCombine (occList ws) []) := by
    rw [List.map_map]
    rfl
  have hmemkeys : ∀ k, k ∈ akeys (afold occKeyRaw prCombine (occList ws) []) ↔
      k ∈ (occList ws).map occKeyRaw := by
    intro k
    rw [mem_akeys_afold]
    simp [akeys]
  have hpermkeys : (akeys (afold occKeyRaw prCombine (occList ws) [])).Perm
      (((occList ws).map occKeyRaw).dedup) :=
    (List.perm_ext_iff_of_nodup hkeysnodup (List.nodup_dedup _)).mpr
      (fun a => by rw [hmemkeys, List.mem_dedup])
  refine ⟨?_, ?_, ?_, ?_, List.sorted_insertionSort prDesc _⟩
  · rw [hperm.length_eq, List.length_map, ← hpermkeys.length_eq]
    simp [akeys]
  · have := (hperm.map (fun r => r.exercise)).nodup_iff
    rw [this, hnames]
    exact hkeysnodup
  · intro n
    rw [(hperm.map (fun r => r.exercise)).mem_iff, hnames, hmemkeys]
  · intro r hr
    have hr' := hperm.mem_iff.mp hr
    obtain ⟨kv, hkv, rfl⟩ := List.mem_map.mp hr'
    have hlook := alookup_of_mem_nodup _ kv hkeysnodup hkv
    rw [alookup_afold] at hlook
    have hlooknil : alookup kv.1 ([] : List (String × PRVal)) = none := rfl
    rw [hlooknil] at hlook
    have hne : (occList ws).filter (fun o => decide (occKeyRaw o = kv.1)) ≠ [] := by
      intro h
      rw [h] at hlook
      cases hlook
    obtain ⟨pre, o, post, heq, hfold, hpre, hall⟩ := prFold_spec _ hne
    rw [hfold] at hlook
    have hv : kv.2 = ⟨o.weight_lbs, o.reps, o.date⟩ := (Option.some_injective _ hlook).symm
    constructor
    · intro o' ho'
      have := hall o' ho'
      rw [hv]
      exact this
    · exact ⟨pre, o, post, heq, by rw [hv], by rw [hv], by rw [hv], hpre⟩

set_option maxRecDepth 4000 in
/-- Witness for C2: in the two-workout example the bench-press record's
maximum (110) bounds every bench-press occurrence. -/
theorem C2_personal_records_witness :
    ∀ o ∈ (occList exC2Ws).filter (fun o => decide (occKeyRaw o = "bench press")),
      o.weight_lbs ≤ (110 : ℚ) :=
  ((C2_personal_records exC2Ws).2.2.2.1
    { exercise := "bench press", max_weight := 110, reps := 3, date := ⟨2024, 1, 8⟩ }
    (by with_unfolding_all decide)).1

/-! ## C6: rep-range records -/

theorem pyRound_le_pyRound_of_lt {x y : ℚ} (n : ℕ) (h : pyRound x n < y) :
    pyRound x n ≤ pyRound y n := by
  have hx : pyRound x n = ((rhe (x * 10 ^ n) : ℤ) : ℚ) / 10 ^ n := rfl
  rw [hx] at h ⊢
  exact le_pyRound_of_le n h.le

theorem pyRound_le_pyRound_of_le {x y : ℚ} (n : ℕ) (h : x ≤ pyRound y n) :
    pyRound x n ≤ pyRound y n := by
  have hy : pyRound y n = ((rhe (y * 10 ^ n) : ℤ) : ℚ) / 10 ^ n := rfl
  rw [hy] at h ⊢
  exact pyRound_le_of_le n h

theorem rrFold_spec (occs : List Occ) (hne : occs ≠ []) :
    ∃ o ∈ occs,
      occs.foldl (fun c oc => some (rrCombine c oc)) none = some (rrMk o) ∧
      ∀ o' ∈ occs,
        pyRound (calculate_estimated_1rm o'.weight_lbs o'.reps) 1 ≤
          pyRound (calculate_estimated_1rm o.weight_lbs o.reps) 1 := by
  induction occs using List.reverseRecOn with
  | nil => cases hne rfl
  | append_singleton l o ih =>
    rcases hl : l with _ | ⟨a, l'⟩
    · refine ⟨o, by simp, by simp [rrCombine], ?_⟩
      intro o' ho'
      rcases List.mem_singleton.mp ho' with rfl
      exact le_refl _
    · rw [← hl]
      have hlne : l ≠ [] := by rw [hl]; simp
      obtain ⟨ob, hob, hfold, hall⟩ := ih hlne
      rw [List.foldl_concat, hfold]
      by_cases hlt : (rrMk ob).estimated_1rm < calculate_estimated_1rm o.weight_lbs o.reps
      · refine ⟨o, by simp, by simp [rrCombine, hlt], ?_⟩
        have hkey : pyRound (calculate_estimated_1rm ob.weight_lbs ob.reps) 1 ≤
            pyRound (calculate_estimated_1rm o.weight_lbs o.reps) 1 :=
          pyRound_le_pyRound_of_lt 1 hlt
        intro o' ho'
        rcases List.mem_append.mp ho' with h | h
        · exact le_trans (hall o' h) hkey
        · rcases List.mem_singleton.mp h with rfl
          exact le_refl _
      · refine ⟨ob, List.mem_append_left _ hob, by simp [rrCombine, hlt], ?_⟩
        intro o' ho'
        rcases List.mem_append.mp ho' with h | h
        · exact hall o' h
        · rcases List.mem_singleton.mp h with rfl
          exact pyRound_le_pyRound_of_le 1 (le_of_not_lt hlt)

/-- C6 counterexample: with rep bounds 1–1, a bench single of 102.24 lbs
(estimated 1RM 102.24, stored rounded as 102.2) is replaced by a later bench
single of 102.23 lbs, whose estimated 1RM is strictly lower — because the
code compares the fresh unrounded 1RM (102.23) against the stored rounded
value (102.2).  The kept record is therefore not the occurrence with the
highest estimated 1RM. -/
theorem C6_rep_range_records_counterexample :
    ((calculate_rep_range_records exRRWs 1 1 true).map
      (fun r => (r.exercise, r.weight, r.estimated_1rm))) =
      [("bench press", 10223/100, 511/5)] ∧
    calculate_estimated_1rm (10223/100) 1 < calculate_estimated_1rm (10224/100) 1 := by
  constructor
  · with_unfolding_all rfl
  · norm_num [calculate_estimated_1rm]

/-- C6 (amended): per normalized name the kept record comes from an actual
eligible occurrence, a later occurrence replaces the incumbent exactly when
its unrounded estimated 1RM strictly exceeds the incumbent's stored rounded
value, and consequently the record's stored (rounded) estimated 1RM is the
maximum of the rounded estimated 1RMs over that name's eligible occurrences;
the output is sorted descending by the stored estimated 1RM. -/
theorem C6_rep_range_records_amended (ws : List LiftingWorkout)
    (min_reps max_reps : ℤ) (key_lifts_only : Bool) :
    (∀ r ∈ calculate_rep_range_records ws min_reps max_reps key_lifts_only,
      ∃ o ∈ (occList ws).filter (rrEligible min_reps max_reps key_lifts_only),
        occKeyNorm o = r.exercise ∧ r = rrMk o ∧
        ∀ o' ∈ (occList ws).filter (rrEligible min_reps max_reps key_lifts_only),
          occKeyNorm o' = r.exercise →
          pyRound (calculate_estimated_1rm o'.weight_lbs o'.reps) 1 ≤ r.estimated_1rm) ∧
    List.Sorted rrDesc (calculate_rep_range_records ws min_reps max_reps key_lifts_only) := by
  constructor
  · intro r hr
    have hkeysnodup : (akeys (afold occKeyNorm rrCombine
        ((occList ws).filter (rrEligible min_reps max_reps key_lifts_only)) [])).Nodup :=
      nodup_akeys_afold _ _ _ _ (by simp [akeys])
    have hr' : r ∈ (afold occKeyNorm rrCombine
        ((occList ws).filter (rrEligible min_reps max_reps key_lifts_only)) []).map
          Prod.snd :=
      (List.perm_insertionSort rrDesc _).mem_iff.mp hr
    obtain ⟨kv, hkv, rfl⟩ := List.mem_map.mp hr'
    have hlook := alookup_of_mem_nodup _ kv hkeysnodup hkv
    rw [alookup_afold] at hlook
    have hlooknil : alookup kv.1 ([] : List (String × RRRecord)) = none := rfl
    rw [hlooknil] at hlook
    have hne : ((occList ws).filter (rrEligible min_reps max_reps key_lifts_only)).filter
        (fun o => decide (occKeyNorm o = kv.1)) ≠ [] := by
      intro h
      rw [h] at hlook
      cases hlook
    obtain ⟨o, ho, hfold, hall⟩ := rrFold_spec _ hne
    rw [hfold] at hlook
    have hv : kv.2 = rrMk o := (Option.some_injective _ hlook).symm
    have hkey : occKeyNorm o = kv.1 := by
      have := (List.mem_filter.mp ho).2
      simpa using this
    have homem : o ∈ (occList ws).filter (rrEligible min_reps max_reps key_lifts_only) :=
      (List.mem_filter.mp ho).1
    have hexr : kv.2.exercise = kv.1 := by
      rw [hv]
      exact hkey
    refine ⟨o, homem, by rw [hexr]; exact hkey, hv, ?_⟩
    intro o' ho' hko'
    have ho'2 : o' ∈ ((occList ws).filter (rrEligible min_reps max_reps key_lifts_only)).filter
        (fun o => decide (occKeyNorm o = kv.1)) := by
      rw [List.mem_filter]
      refine ⟨ho', ?_⟩
      rw [hko', hexr]
      simp
    have := hall o' ho'2
    rw [hv]
    exact this
  · exact List.sorted_insertionSort rrDesc _

set_option maxRecDepth 4000 in
/-- Witness for the amended C6 at the two-bench example. -/
theorem C6_rep_range_records_amended_witness :
    ∃ o ∈ (occList exRRWs).filter (rrEligible 1 1 true),
      occKeyNorm o = "bench press" ∧
      ({ exercise := "bench press", weight := 10223/100, reps := 1, rpe := none,
         date := ⟨2024, 1, 2⟩, estimated_1rm := 511/5 } : RRRecord) = rrMk o ∧
      ∀ o' ∈ (occList exRRWs).filter (rrEligible 1 1 true),
        occKeyNorm o' = "bench press" →
        pyRound (calculate_estimated_1rm o'.weight_lbs o'.reps) 1 ≤ (511/5 : ℚ) :=
  (C6_rep_range_records_amended exRRWs 1 1 true).1
    { exercise := "bench press", weight := 10223/100, reps := 1, rpe := none,
      date := ⟨2024, 1, 2⟩, estimated_1rm := 511/5 }
    (by
      have h : calculate_rep_range_records exRRWs 1 1 true =
          [{ exercise := "bench press", weight := 10223/100, reps := 1, rpe := none,
             date := ⟨2024, 1, 2⟩, estimated_1rm := 511/5 }] := by
        with_unfolding_all rfl
      rw [h]
      exact List.mem_singleton.mpr rfl)

/-! ## C7: rolling volume trend -/

/-- C7 counterexample: four weekly volumes 0, 0, 0, 1 with window 4 give a
rolling value of 0 at the fourth entry, while the arithmetic mean of the four
volumes is 1/4 — the code stores `round(mean, 0)`, not the mean. -/
theorem C7_volume_trend_counterexample :
    ((calculate_exercise_volume_trend exTrendWs 4).map (fun e => e.rolling_avg)) =
      [none, none, none, some 0] ∧
    ((((calculate_weekly_volume exTrendWs).drop 0).take 4).map
      (fun e => e.volume)).sum / (4 : ℚ) = 1/4 ∧
    (0 : ℚ) ≠ 1/4 := by
  refine ⟨by with_unfolding_all rfl, by with_unfolding_all rfl, by norm_num⟩

/-- C7 (amended): whenever the weekly series has at least `w ≥ 1` weeks, the
trend has one entry per week, the first `w - 1` entries carry no rolling
average, and the entry at each position `i ≥ w - 1` carries the half-even
integer rounding of the arithmetic mean of that week's and the preceding
`w - 1` weeks' volumes. -/
theorem C7_volume_trend_amended (ws : List LiftingWorkout) (w : ℕ) (hw : 0 < w)
    (hlen : w ≤ (calculate_weekly_volume ws).length) :
    (calculate_exercise_volume_trend ws w).length =
      (calculate_weekly_volume ws).length ∧
    ∀ i (hi : i < (calculate_exercise_volume_trend ws w).length),
      (i < w - 1 →
        ((calculate_exercise_volume_trend ws w).get ⟨i, hi⟩).rolling_avg = none) ∧
      (w - 1 ≤ i →
        ((calculate_exercise_volume_trend ws w).get ⟨i, hi⟩).rolling_avg =
          some (pyRound
            (((((calculate_weekly_volume ws).drop (i + 1 - w)).take w).map
              (fun e => e.volume)).sum / (w : ℚ)) 0)) := by
  have hnot : ¬ ((calculate_weekly_volume ws).length < w) := not_lt.mpr hlen
  have hdef : calculate_exercise_volume_trend ws w =
      (calculate_weekly_volume ws).mapIdx fun i e =>
        if w - 1 ≤ i then
          mkTrendEntry e (some (pyRound
            (((((calculate_weekly_volume ws).drop (i + 1 - w)).take w).map
              (fun x => x.volume)).sum /
              (((((calculate_weekly_volume ws).drop (i + 1 - w)).take w)).length : ℚ)) 0))
        else mkTrendEntry e none := by
    unfold calculate_exercise_volume_trend
    rw [if_neg hnot]
  constructor
  · rw [hdef]
    exact List.length_mapIdx
  · intro i hi
    have hi' : i < (calculate_weekly_volume ws).length := by
      have := hi
      rw [hdef, List.length_mapIdx] at this
      exact this
    constructor
    · intro hlt
      have hnot2 : ¬ (w - 1 ≤ i) := by omega
      simp only [List.get_eq_getElem, hdef, List.getElem_mapIdx, if_neg hnot2, mkTrendEntry]
    · intro hge
      have hwin : ((((calculate_weekly_volume ws)).drop (i + 1 - w)).take w).length = w := by
        rw [List.length_take, List.length_drop]
        omega
      simp only [List.get_eq_getElem, hdef, List.getElem_mapIdx, if_pos hge, mkTrendEntry]
      rw [hwin]

set_option maxRecDepth 4000 in
/-- Witness for the amended C7 at the four-week example, window 4, i = 3. -/
theorem C7_volume_trend_amended_witness :
    ((calculate_exercise_volume_trend exTrendWs 4).get
      ⟨3, by with_unfolding_all decide⟩).rolling_avg =
      some (pyRound
        (((((calculate_weekly_volume exTrendWs).drop (3 + 1 - 4)).take 4).map
          (fun e => e.volume)).sum / (4 : ℚ)) 0) :=
  ((C7_volume_trend_amended exTrendWs 4 (by norm_num)
    (by with_unfolding_all decide)).2 3 (by with_unfolding_all decide)).2 (by norm_num)
